import Mathlib

/-!
# Pong: the frame step of `Pong.c`

A shallow embedding of `Init` and `Update` of `Pong.c` as pure functions on an
explicit game state, followed by theorems about the frame step.

Modelling conventions.

* The C globals become the fields of `Game`; `Update` maps the state before a
  frame to the state after it.
* Everything `Update` asks of the graphics library during one frame is gathered
  in `Env`: the held keys, the frame time, the results of the `GetRandomValue`
  calls and the circle-rectangle test `CheckCollisionCircleRec`, which is taken
  as an arbitrary predicate.
* The coordinates are C `float`s.  Every value the program stores in them is an
  integer (a constant, or a sum or difference of integers far below `2^24`), on
  which `float` arithmetic is exact, so they are modelled as `Int`.  The halves
  `windowWidth * 0.5`, `windowHeight * 0.5` and `paddleHeight * 0.5` are the
  exact integers 480, 270 and 40.
* The score counters are C `int`s, modelled as `Int`: signed overflow is
  undefined in C, so every defined execution agrees with the unbounded counter.
* The blink timers and the frame time are C `float`s, modelled as the rationals they
  denote.  Their sum is the single-precision sum `addFloat`: the exact sum rounded
  to the nearest `float`, ties to even.  Infinities and NaN are not represented: a
  sum beyond the largest `float` stays a finite number above the threshold, and the
  branch it selects stores 0, as it does for an infinite sum.
-/

namespace Pong

/-- The phases of the game: `enum GameState`. -/
inductive GameState where
  | start
  | play
  | score
  deriving DecidableEq, Repr

/-- The two colours `Update` and `Init` assign to the ball. -/
inductive Color where
  | BLUE
  | RED
  deriving DecidableEq, Repr

/-- The library's `Rectangle`. -/
structure Rectangle where
  x : Int
  y : Int
  width : Int
  height : Int
  deriving DecidableEq, Repr

/-- The library's `Vector2`. -/
structure Vector2 where
  x : Int
  y : Int
  deriving DecidableEq, Repr

def windowWidth : Int := 960
def windowHeight : Int := 540

def paddleWidth : Int := 20
def paddleHeight : Int := 80
def paddleMargin : Int := 40
def paddleSpeed : Int := 5

def ballRadius : Int := 20
def ballDiameter : Int := ballRadius * 2
def ballSpeed : Int := 8
def ballSpeedFast : Int := 16

def startThreshold : ℚ := 1 / 2
def scoreThreshold : ℚ := 1 / 2

/-- Nearest integer to `x`, ties to the even one. -/
def roundHalfEven (x : ℚ) : Int :=
  if x - ⌊x⌋ < 1 / 2 then ⌊x⌋
  else if 1 / 2 < x - ⌊x⌋ then ⌊x⌋ + 1
  else if ⌊x⌋ % 2 = 0 then ⌊x⌋
  else ⌊x⌋ + 1

/-- The `float` nearest to `q`, ties to even (the default rounding of C `float`
arithmetic).  A finite `float` is an integer multiple of `2^-149` with at most 24
significant bits: `q` is counted in units of `2^-149`, the bits below the leading 24
are `drop` many, and the count is rounded to a multiple of `2^drop`. -/
def roundFloat (q : ℚ) : ℚ :=
  let x := q * 2 ^ 149
  let drop := Nat.log 2 ⌊|x|⌋₊ - 23
  (roundHalfEven (x / 2 ^ drop) : ℚ) * 2 ^ drop / 2 ^ 149

/-- The sum `a + b` of two `float`s as C computes it. -/
def addFloat (a b : ℚ) : ℚ :=
  roundFloat (a + b)

/-- The `float` 0.4f. -/
def float04 : ℚ := 13421773 / 2 ^ 25

/-- The `float` 0.1f. -/
def float01 : ℚ := 13421773 / 2 ^ 27

/-- The `float` nearest to 1/60, the frame time at 60 frames per second. -/
def float60 : ℚ := 8947849 / 2 ^ 29

/-- The global variables of `Pong.c`. -/
structure Game where
  playerPaddle : Rectangle
  opponentPaddle : Rectangle
  ball : Vector2
  ballVelocity : Vector2
  ballColor : Color
  gameState : GameState
  showStartText : Bool
  startElapsed : ℚ
  showScoreText : Bool
  scoreElapsed : ℚ
  leftScore : Int
  rightScore : Int
  leftScoredLast : Bool

/-- What the graphics library answers during one call of `Update`. -/
structure Env where
  /-- Value of `IsKeyDown(KEY_SPACE)`. -/
  keySpace : Bool
  /-- Value of `IsKeyDown(KEY_W)`. -/
  keyW : Bool
  /-- Value of `IsKeyDown(KEY_S)`. -/
  keyS : Bool
  /-- Value of `GetFrameTime()`. -/
  frameTime : ℚ
  /-- Result of the first `GetRandomValue(0, 1)` of the frame. -/
  randomX : Int
  /-- Result of the second `GetRandomValue(0, 1)` of the frame. -/
  randomY : Int
  /-- Result of `GetRandomValue(0, 2)` in the collision response. -/
  randomValue : Int
  /-- The library's circle-rectangle test. -/
  CheckCollisionCircleRec : Vector2 → Int → Rectangle → Bool

/-- State set up by `Init` (lines 99-124). -/
def Init : Game where
  playerPaddle :=
    { x := paddleMargin
      y := windowHeight / 2 - paddleHeight / 2
      width := paddleWidth
      height := paddleHeight }
  opponentPaddle :=
    { x := windowWidth - paddleWidth - paddleMargin
      y := windowHeight / 2 - paddleHeight / 2
      width := paddleWidth
      height := paddleHeight }
  ball := { x := windowWidth / 2, y := windowHeight / 2 }
  ballVelocity := { x := 0, y := 0 }
  ballColor := Color.BLUE
  gameState := GameState.start
  showStartText := true
  startElapsed := 0
  showScoreText := true
  scoreElapsed := 0
  leftScore := 0
  rightScore := 0
  leftScoredLast := false

/-- Branch `gameState == start` of `Update` (lines 130-146). -/
def updateStart (e : Env) (s : Game) : Game :=
  if e.keySpace then
    { s with
      startElapsed := 0
      showStartText := true
      gameState := GameState.play
      ballVelocity :=
        { x := if e.randomX = 0 then ballSpeed else -ballSpeed
          y := if e.randomY = 0 then ballSpeed else -ballSpeed } }
  else
    let s1 := { s with startElapsed := addFloat s.startElapsed e.frameTime }
    if s1.startElapsed > startThreshold then
      { s1 with startElapsed := 0, showStartText := !s1.showStartText }
    else
      s1

/-- Player paddle: keys, then clamp (lines 150-157). -/
def movePlayerPaddle (e : Env) (s : Game) : Game :=
  let s1 :=
    if e.keyW then
      { s with playerPaddle := { s.playerPaddle with y := s.playerPaddle.y - paddleSpeed } }
    else s
  let s2 :=
    if e.keyS then
      { s1 with playerPaddle := { s1.playerPaddle with y := s1.playerPaddle.y + paddleSpeed } }
    else s1
  if s2.playerPaddle.y < 0 then
    { s2 with playerPaddle := { s2.playerPaddle with y := 0 } }
  else if s2.playerPaddle.y > windowHeight - paddleHeight then
    { s2 with playerPaddle := { s2.playerPaddle with y := windowHeight - paddleHeight } }
  else s2

/-- Opponent paddle: follow the ball, then clamp (lines 158-165). -/
def moveOpponentPaddle (s : Game) : Game :=
  let s1 :=
    if s.opponentPaddle.y + paddleHeight / 2 < s.ball.y then
      { s with opponentPaddle := { s.opponentPaddle with y := s.opponentPaddle.y + paddleSpeed } }
    else if s.opponentPaddle.y + paddleHeight / 2 > s.ball.y then
      { s with opponentPaddle := { s.opponentPaddle with y := s.opponentPaddle.y - paddleSpeed } }
    else s
  if s1.opponentPaddle.y < 0 then
    { s1 with opponentPaddle := { s1.opponentPaddle with y := 0 } }
  else if s1.opponentPaddle.y > windowHeight - paddleHeight then
    { s1 with opponentPaddle := { s1.opponentPaddle with y := windowHeight - paddleHeight } }
  else s1

/-- Horizontal move of the ball and the score test (lines 166-179). -/
def moveBallX (s : Game) : Game :=
  let s1 := { s with ball := { s.ball with x := s.ball.x + s.ballVelocity.x } }
  if s1.ball.x < 0 then
    { s1 with
      gameState := GameState.score
      rightScore := s1.rightScore + 1
      leftScoredLast := false }
  else if s1.ball.x > windowWidth - ballDiameter then
    { s1 with
      gameState := GameState.score
      leftScore := s1.leftScore + 1
      leftScoredLast := true
      showScoreText := true }
  else s1

/-- Vertical move of the ball and the wall bounce (lines 180-190). -/
def moveBallY (s : Game) : Game :=
  let s1 := { s with ball := { s.ball with y := s.ball.y + s.ballVelocity.y } }
  if s1.ball.y < ballRadius then
    { s1 with
      ball := { s1.ball with y := ballRadius }
      ballVelocity := { s1.ballVelocity with y := -s1.ballVelocity.y } }
  else if s1.ball.y > windowHeight - ballRadius then
    { s1 with
      ball := { s1.ball with y := windowHeight - ballRadius }
      ballVelocity := { s1.ballVelocity with y := -s1.ballVelocity.y } }
  else s1

/-- Paddle collision response (lines 191-224). -/
def collide (e : Env) (s : Game) : Game :=
  if e.CheckCollisionCircleRec s.ball ballRadius s.playerPaddle then
    let s1 := { s with ball := { s.ball with x := s.playerPaddle.x + paddleWidth + ballRadius } }
    if e.randomValue = 0 then
      { s1 with
        ballVelocity :=
          { x := ballSpeedFast
            y := (if s1.ballVelocity.y < 0 then -1 else 1) * ballSpeedFast }
        ballColor := Color.RED }
    else
      { s1 with
        ballVelocity :=
          { x := ballSpeed
            y := (if s1.ballVelocity.y < 0 then -1 else 1) * ballSpeed }
        ballColor := Color.BLUE }
  else if e.CheckCollisionCircleRec s.ball ballRadius s.opponentPaddle then
    let s1 := { s with ball := { s.ball with x := s.opponentPaddle.x - ballDiameter } }
    if e.randomValue = 0 then
      { s1 with
        ballVelocity :=
          { x := -ballSpeedFast
            y := (if s1.ballVelocity.y < 0 then -1 else 1) * ballSpeedFast }
        ballColor := Color.RED }
    else
      { s1 with
        ballVelocity :=
          { x := -ballSpeed
            y := (if s1.ballVelocity.y < 0 then -1 else 1) * ballSpeed }
        ballColor := Color.BLUE }
  else s

/-- State of the frame after the paddles and the ball have moved (lines 150-190),
just before the paddle collision tests. -/
def moved (e : Env) (s : Game) : Game :=
  moveBallY (moveBallX (moveOpponentPaddle (movePlayerPaddle e s)))

/-- Branch `gameState == play` of `Update` (lines 150-224). -/
def updatePlay (e : Env) (s : Game) : Game :=
  collide e (moved e s)

/-- Branch `gameState == score` of `Update` (lines 228-249). -/
def updateScore (e : Env) (s : Game) : Game :=
  if e.keySpace then
    { s with
      scoreElapsed := 0
      showScoreText := true
      gameState := GameState.play
      ball := { x := windowWidth / 2, y := windowHeight / 2 }
      ballVelocity :=
        { x := if e.randomX = 0 then ballSpeed else -ballSpeed
          y := if e.randomY = 0 then ballSpeed else -ballSpeed }
      ballColor := Color.BLUE
      playerPaddle := { s.playerPaddle with y := windowHeight / 2 - paddleHeight / 2 }
      opponentPaddle := { s.opponentPaddle with y := windowHeight / 2 - paddleHeight / 2 } }
  else
    let s1 := { s with scoreElapsed := addFloat s.scoreElapsed e.frameTime }
    if s1.scoreElapsed > scoreThreshold then
      { s1 with scoreElapsed := 0, showScoreText := !s1.showScoreText }
    else
      s1

/-- One frame of the game: `Update` (lines 126-251). -/
def Update (e : Env) (s : Game) : Game :=
  match s.gameState with
  | GameState.start => updateStart e s
  | GameState.play => updatePlay e s
  | GameState.score => updateScore e s

/-- The states the program can be in: `Init`, then any number of `Update`s. -/
inductive Reachable : Game → Prop where
  | init : Reachable Init
  | update (e : Env) (s : Game) : Reachable s → Reachable (Update e s)

/-- The test reports a collision with the player paddle in this frame (line 191). -/
def hitsPlayer (e : Env) (s : Game) : Bool :=
  e.CheckCollisionCircleRec (moved e s).ball ballRadius (moved e s).playerPaddle

/-- The test reports a collision with the opponent paddle in this frame (line 208);
the program consults it only when `hitsPlayer` is false. -/
def hitsOpponent (e : Env) (s : Game) : Bool :=
  e.CheckCollisionCircleRec (moved e s).ball ballRadius (moved e s).opponentPaddle

/-- Modelled from the spec: the geometric intersection test between a circle and a
rectangle that the graphics library supplies (`CheckCollisionCircleRec` is not part
of `Pong.c`).  The circle meets the rectangle when the point of the rectangle
nearest to the centre is within the radius.  Used only to build concrete frames. -/
def overlapCircleRec (center : Vector2) (radius : Int) (rec : Rectangle) : Bool :=
  let nx := max rec.x (min center.x (rec.x + rec.width))
  let ny := max rec.y (min center.y (rec.y + rec.height))
  decide ((center.x - nx) * (center.x - nx) + (center.y - ny) * (center.y - ny)
    ≤ radius * radius)

/-- A frame with no key held, non-zero rolls and the geometric collision test. -/
def idleEnv : Env where
  keySpace := false
  keyW := false
  keyS := false
  frameTime := float60
  randomX := 1
  randomY := 1
  randomValue := 1
  CheckCollisionCircleRec := overlapCircleRec

/-- A frame with the start key held and the given two rolls. -/
def startEnv (rx ry : Int) : Env :=
  { idleEnv with keySpace := true, randomX := rx, randomY := ry }

/-- A frame with the given up and down keys held. -/
def keysEnv (w d : Bool) : Env :=
  { idleEnv with keyW := w, keyS := d }

/-- A frame with no key held that lasted `dt` seconds. -/
def frameEnv (dt : ℚ) : Env :=
  { idleEnv with frameTime := dt }

/-- A frame with no key held and the given roll for the collision response. -/
def rollEnv (r : Int) : Env :=
  { idleEnv with randomValue := r }

/-- A Play state with the ball at `(bx, byy)` moving at `(vx, vy)`, all else as set
up by `Init`. -/
def playAt (bx byy vx vy : Int) : Game :=
  { Init with
    gameState := GameState.play
    ball := { x := bx, y := byy }
    ballVelocity := { x := vx, y := vy } }

/-- A Play state in which the ball reaches the top wall and the player paddle, parked
at the top, in the same frame. -/
def cornerShot : Game :=
  { playAt 88 28 (-16) (-16) with
    playerPaddle := { Init.playerPaddle with y := 0 }
    ballColor := Color.RED }

/-- A Score state: the player has just scored a third point, the paddles and the ball
are where play left them. -/
def scoreBoard : Game :=
  { Init with
    gameState := GameState.score
    playerPaddle := { Init.playerPaddle with y := 100 }
    opponentPaddle := { Init.opponentPaddle with y := 460 }
    ball := { x := 928, y := 500 }
    ballVelocity := { x := 16, y := -16 }
    ballColor := Color.RED
    showScoreText := false
    scoreElapsed := 1 / 4
    leftScore := 3
    rightScore := 2
    leftScoredLast := true }

/-- The velocity and colour of the ball fit together: the two components have the
same magnitude, 0, `ballSpeed` or `ballSpeedFast`, and the colour is red exactly at
`ballSpeedFast`. -/
def VelocityOk (v : Vector2) (c : Color) : Prop :=
  (v.x = 0 ∨ v.x = 8 ∨ v.x = -8 ∨ v.x = 16 ∨ v.x = -16) ∧
  (v.y = v.x ∨ v.y = -v.x) ∧
  (c = Color.RED ↔ (v.x = 16 ∨ v.x = -16))


/-- Reference definition, following the words of the specification: `clamp v lo hi`
is `v` brought into the range `[lo, hi]`. -/
def clamp (v lo hi : Int) : Int :=
  max lo (min v hi)

/-- Reference definition, following the words of the specification: the player
paddle moves up by `paddleSpeed` if the up key is held and down by `paddleSpeed` if the
down key is held, and is then clamped to `[0, windowHeight - paddleHeight]`. -/
def playerPaddleStep (up down : Bool) (y : Int) : Int :=
  clamp (y - 5 * (if up then 1 else 0) + 5 * (if down then 1 else 0)) 0 460

/-- Reference definition, following the words of the specification: the opponent
paddle moves down by `paddleSpeed` if its centre `y + 40` is above the ball, up by
`paddleSpeed` if it is below, not at all if they are level, and is then clamped to
`[0, windowHeight - paddleHeight]`. -/
def opponentPaddleStep (y ballY : Int) : Int :=
  if y + 40 < ballY then clamp (y + 5) 0 460
  else if y + 40 > ballY then clamp (y - 5) 0 460
  else clamp y 0 460

/-- A Play state with the ball at height `b` in mid-field and the opponent paddle at
height `y`. -/
def chaseAt (y b : Int) : Game :=
  { playAt 480 b 8 8 with opponentPaddle := { Init.opponentPaddle with y := y } }

/-- The state after `n` more frames, all with the same answers `e`. -/
def frames (e : Env) : Nat → Game → Game
  | 0, s => s
  | n + 1, s => Update e (frames e n s)

/-- The Start state of a run whose first frame took 0.4 s (the window was stalled). -/
def stalled : Game :=
  Update (frameEnv float04) Init

/-! ## What each step of the Play branch leaves alone -/

section Frame

variable (e : Env) (s : Game)

@[simp]
theorem movePlayerPaddle_opponentPaddle :
    (movePlayerPaddle e s).opponentPaddle = s.opponentPaddle := by
  unfold movePlayerPaddle; simp only []; split_ifs <;> rfl

@[simp]
theorem movePlayerPaddle_ball : (movePlayerPaddle e s).ball = s.ball := by
  unfold movePlayerPaddle; simp only []; split_ifs <;> rfl

@[simp]
theorem movePlayerPaddle_ballVelocity :
    (movePlayerPaddle e s).ballVelocity = s.ballVelocity := by
  unfold movePlayerPaddle; simp only []; split_ifs <;> rfl

@[simp]
theorem movePlayerPaddle_ballColor :
    (movePlayerPaddle e s).ballColor = s.ballColor := by
  unfold movePlayerPaddle; simp only []; split_ifs <;> rfl

@[simp]
theorem movePlayerPaddle_gameState :
    (movePlayerPaddle e s).gameState = s.gameState := by
  unfold movePlayerPaddle; simp only []; split_ifs <;> rfl

@[simp]
theorem movePlayerPaddle_leftScore :
    (movePlayerPaddle e s).leftScore = s.leftScore := by
  unfold movePlayerPaddle; simp only []; split_ifs <;> rfl

@[simp]
theorem movePlayerPaddle_rightScore :
    (movePlayerPaddle e s).rightScore = s.rightScore := by
  unfold movePlayerPaddle; simp only []; split_ifs <;> rfl

@[simp]
theorem movePlayerPaddle_leftScoredLast :
    (movePlayerPaddle e s).leftScoredLast = s.leftScoredLast := by
  unfold movePlayerPaddle; simp only []; split_ifs <;> rfl

@[simp]
theorem moveOpponentPaddle_playerPaddle :
    (moveOpponentPaddle s).playerPaddle = s.playerPaddle := by
  unfold moveOpponentPaddle; simp only []; split_ifs <;> rfl

@[simp]
theorem moveOpponentPaddle_ball : (moveOpponentPaddle s).ball = s.ball := by
  unfold moveOpponentPaddle; simp only []; split_ifs <;> rfl

@[simp]
theorem moveOpponentPaddle_ballVelocity :
    (moveOpponentPaddle s).ballVelocity = s.ballVelocity := by
  unfold moveOpponentPaddle; simp only []; split_ifs <;> rfl

@[simp]
theorem moveOpponentPaddle_ballColor :
    (moveOpponentPaddle s).ballColor = s.ballColor := by
  unfold moveOpponentPaddle; simp only []; split_ifs <;> rfl

@[simp]
theorem moveOpponentPaddle_gameState :
    (moveOpponentPaddle s).gameState = s.gameState := by
  unfold moveOpponentPaddle; simp only []; split_ifs <;> rfl

@[simp]
theorem moveOpponentPaddle_leftScore :
    (moveOpponentPaddle s).leftScore = s.leftScore := by
  unfold moveOpponentPaddle; simp only []; split_ifs <;> rfl

@[simp]
theorem moveOpponentPaddle_rightScore :
    (moveOpponentPaddle s).rightScore = s.rightScore := by
  unfold moveOpponentPaddle; simp only []; split_ifs <;> rfl

@[simp]
theorem moveOpponentPaddle_leftScoredLast :
    (moveOpponentPaddle s).leftScoredLast = s.leftScoredLast := by
  unfold moveOpponentPaddle; simp only []; split_ifs <;> rfl

@[simp]
theorem moveBallX_playerPaddle : (moveBallX s).playerPaddle = s.playerPaddle := by
  unfold moveBallX; simp only []; split_ifs <;> rfl

@[simp]
theorem moveBallX_opponentPaddle :
    (moveBallX s).opponentPaddle = s.opponentPaddle := by
  unfold moveBallX; simp only []; split_ifs <;> rfl

@[simp]
theorem moveBallX_ball_y : (moveBallX s).ball.y = s.ball.y := by
  unfold moveBallX; simp only []; split_ifs <;> rfl

@[simp]
theorem moveBallX_ball_x :
    (moveBallX s).ball.x = s.ball.x + s.ballVelocity.x := by
  unfold moveBallX; simp only []; split_ifs <;> rfl

@[simp]
theorem moveBallX_ballVelocity : (moveBallX s).ballVelocity = s.ballVelocity := by
  unfold moveBallX; simp only []; split_ifs <;> rfl

@[simp]
theorem moveBallX_ballColor : (moveBallX s).ballColor = s.ballColor := by
  unfold moveBallX; simp only []; split_ifs <;> rfl

@[simp]
theorem moveBallY_playerPaddle : (moveBallY s).playerPaddle = s.playerPaddle := by
  unfold moveBallY; simp only []; split_ifs <;> rfl

@[simp]
theorem moveBallY_opponentPaddle :
    (moveBallY s).opponentPaddle = s.opponentPaddle := by
  unfold moveBallY; simp only []; split_ifs <;> rfl

@[simp]
theorem moveBallY_ball_x : (moveBallY s).ball.x = s.ball.x := by
  unfold moveBallY; simp only []; split_ifs <;> rfl

@[simp]
theorem moveBallY_ballVelocity_x :
    (moveBallY s).ballVelocity.x = s.ballVelocity.x := by
  unfold moveBallY; simp only []; split_ifs <;> rfl

@[simp]
theorem moveBallY_ballColor : (moveBallY s).ballColor = s.ballColor := by
  unfold moveBallY; simp only []; split_ifs <;> rfl

@[simp]
theorem moveBallY_gameState : (moveBallY s).gameState = s.gameState := by
  unfold moveBallY; simp only []; split_ifs <;> rfl

@[simp]
theorem moveBallY_leftScore : (moveBallY s).leftScore = s.leftScore := by
  unfold moveBallY; simp only []; split_ifs <;> rfl

@[simp]
theorem moveBallY_rightScore : (moveBallY s).rightScore = s.rightScore := by
  unfold moveBallY; simp only []; split_ifs <;> rfl

@[simp]
theorem moveBallY_leftScoredLast :
    (moveBallY s).leftScoredLast = s.leftScoredLast := by
  unfold moveBallY; simp only []; split_ifs <;> rfl

@[simp]
theorem collide_playerPaddle : (collide e s).playerPaddle = s.playerPaddle := by
  unfold collide; simp only []; split_ifs <;> rfl

@[simp]
theorem collide_opponentPaddle :
    (collide e s).opponentPaddle = s.opponentPaddle := by
  unfold collide; simp only []; split_ifs <;> rfl

@[simp]
theorem collide_ball_y : (collide e s).ball.y = s.ball.y := by
  unfold collide; simp only []; split_ifs <;> rfl

@[simp]
theorem collide_gameState : (collide e s).gameState = s.gameState := by
  unfold collide; simp only []; split_ifs <;> rfl

@[simp]
theorem collide_leftScore : (collide e s).leftScore = s.leftScore := by
  unfold collide; simp only []; split_ifs <;> rfl

@[simp]
theorem collide_rightScore : (collide e s).rightScore = s.rightScore := by
  unfold collide; simp only []; split_ifs <;> rfl

@[simp]
theorem collide_leftScoredLast :
    (collide e s).leftScoredLast = s.leftScoredLast := by
  unfold collide; simp only []; split_ifs <;> rfl

/-- In the Play phase `Update` is the Play branch. -/
theorem Update_play (h : s.gameState = GameState.play) : Update e s = updatePlay e s := by
  unfold Update; rw [h]

/-- In the Start phase `Update` is the Start branch. -/
theorem Update_start (h : s.gameState = GameState.start) :
    Update e s = updateStart e s := by
  unfold Update; rw [h]

/-- In the Score phase `Update` is the Score branch. -/
theorem Update_score (h : s.gameState = GameState.score) :
    Update e s = updateScore e s := by
  unfold Update; rw [h]

end Frame


/-! ## The Start and Score branches -/

section Branches

variable (e : Env) (s : Game)

@[simp]
theorem updateStart_playerPaddle : (updateStart e s).playerPaddle = s.playerPaddle := by
  unfold updateStart; simp only []; split_ifs <;> rfl

@[simp]
theorem updateStart_opponentPaddle :
    (updateStart e s).opponentPaddle = s.opponentPaddle := by
  unfold updateStart; simp only []; split_ifs <;> rfl

@[simp]
theorem updateStart_ball : (updateStart e s).ball = s.ball := by
  unfold updateStart; simp only []; split_ifs <;> rfl

@[simp]
theorem updateStart_ballColor : (updateStart e s).ballColor = s.ballColor := by
  unfold updateStart; simp only []; split_ifs <;> rfl

@[simp]
theorem updateStart_leftScore : (updateStart e s).leftScore = s.leftScore := by
  unfold updateStart; simp only []; split_ifs <;> rfl

@[simp]
theorem updateStart_rightScore : (updateStart e s).rightScore = s.rightScore := by
  unfold updateStart; simp only []; split_ifs <;> rfl

@[simp]
theorem updateStart_leftScoredLast :
    (updateStart e s).leftScoredLast = s.leftScoredLast := by
  unfold updateStart; simp only []; split_ifs <;> rfl

/-- The Score branch without the start key changes only the blink timer and flag. -/
theorem updateScore_idle (h : e.keySpace = false) :
    (updateScore e s).playerPaddle = s.playerPaddle ∧
    (updateScore e s).opponentPaddle = s.opponentPaddle ∧
    (updateScore e s).ball = s.ball ∧
    (updateScore e s).ballVelocity = s.ballVelocity ∧
    (updateScore e s).ballColor = s.ballColor ∧
    (updateScore e s).gameState = s.gameState ∧
    (updateScore e s).leftScore = s.leftScore ∧
    (updateScore e s).rightScore = s.rightScore ∧
    (updateScore e s).leftScoredLast = s.leftScoredLast := by
  unfold updateScore
  simp only [h, Bool.false_eq_true, if_false]
  split_ifs <;> simp

/-- The Score branch with the start key held, field by field. -/
theorem updateScore_restart (h : e.keySpace = true) :
    updateScore e s =
      { s with
        scoreElapsed := 0
        showScoreText := true
        gameState := GameState.play
        ball := { x := windowWidth / 2, y := windowHeight / 2 }
        ballVelocity :=
          { x := if e.randomX = 0 then ballSpeed else -ballSpeed
            y := if e.randomY = 0 then ballSpeed else -ballSpeed }
        ballColor := Color.BLUE
        playerPaddle := { s.playerPaddle with y := windowHeight / 2 - paddleHeight / 2 }
        opponentPaddle := { s.opponentPaddle with y := windowHeight / 2 - paddleHeight / 2 } } := by
  unfold updateScore
  simp only [h, if_true]

end Branches

/-! ## Ranges kept by the Play branch -/

/-- The player paddle leaves its step inside `[0, windowHeight - paddleHeight]`. -/
theorem movePlayerPaddle_y_range (e : Env) (s : Game) :
    0 ≤ (movePlayerPaddle e s).playerPaddle.y ∧
    (movePlayerPaddle e s).playerPaddle.y ≤ windowHeight - paddleHeight := by
  unfold movePlayerPaddle
  simp only [windowHeight, paddleHeight, paddleSpeed]
  split_ifs <;> (try dsimp only at *) <;> omega

/-- The opponent paddle leaves its step inside `[0, windowHeight - paddleHeight]`. -/
theorem moveOpponentPaddle_y_range (s : Game) :
    0 ≤ (moveOpponentPaddle s).opponentPaddle.y ∧
    (moveOpponentPaddle s).opponentPaddle.y ≤ windowHeight - paddleHeight := by
  unfold moveOpponentPaddle
  simp only [windowHeight, paddleHeight, paddleSpeed]
  split_ifs <;> (try dsimp only at *) <;> omega

/-- The ball leaves its vertical step inside `[ballRadius, windowHeight - ballRadius]`. -/
theorem moveBallY_y_range (s : Game) :
    ballRadius ≤ (moveBallY s).ball.y ∧ (moveBallY s).ball.y ≤ windowHeight - ballRadius := by
  unfold moveBallY
  simp only [windowHeight, ballRadius]
  split_ifs <;> (try dsimp only at *) <;> omega

/-- Both paddles after a Play frame are those of the two paddle steps. -/
theorem updatePlay_paddles (e : Env) (s : Game) :
    (updatePlay e s).playerPaddle = (movePlayerPaddle e s).playerPaddle ∧
    (updatePlay e s).opponentPaddle
      = (moveOpponentPaddle (movePlayerPaddle e s)).opponentPaddle := by
  simp [updatePlay, moved]

/-- Invariant of the reachable states: both paddles and the ball are vertically in
range. -/
theorem Reachable.vertical_ranges {s : Game} (h : Reachable s) :
    (0 ≤ s.playerPaddle.y ∧ s.playerPaddle.y ≤ windowHeight - paddleHeight) ∧
    (0 ≤ s.opponentPaddle.y ∧ s.opponentPaddle.y ≤ windowHeight - paddleHeight) ∧
    (ballRadius ≤ s.ball.y ∧ s.ball.y ≤ windowHeight - ballRadius) := by
  induction h with
  | init => decide
  | update e s _ ih =>
    cases hg : s.gameState with
    | start =>
      rw [Update_start e s hg]
      simpa using ih
    | play =>
      rw [Update_play e s hg]
      refine ⟨?_, ?_, ?_⟩
      · rw [(updatePlay_paddles e s).1]
        exact movePlayerPaddle_y_range e s
      · rw [(updatePlay_paddles e s).2]
        exact moveOpponentPaddle_y_range _
      · simp only [updatePlay, moved, collide_ball_y]
        exact moveBallY_y_range _
    | score =>
      rw [Update_score e s hg]
      cases hk : e.keySpace with
      | false =>
        obtain ⟨h1, h2, h3, -⟩ := updateScore_idle e s hk
        rw [h1, h2, h3]
        exact ih
      | true =>
        rw [updateScore_restart e s hk]
        dsimp only
        decide


/-! ## The ball steps in detail -/

section BallSteps

variable (e : Env) (s : Game)

@[simp]
theorem movePlayerPaddle_playerPaddle_x :
    (movePlayerPaddle e s).playerPaddle.x = s.playerPaddle.x := by
  unfold movePlayerPaddle; simp only []; split_ifs <;> rfl

@[simp]
theorem moveOpponentPaddle_opponentPaddle_x :
    (moveOpponentPaddle s).opponentPaddle.x = s.opponentPaddle.x := by
  unfold moveOpponentPaddle; simp only []; split_ifs <;> rfl

/-- The vertical step: clamp to the margin crossed and negate `vy`, or just move. -/
theorem moveBallY_spec :
    (s.ball.y + s.ballVelocity.y < ballRadius →
      (moveBallY s).ball.y = ballRadius ∧
      (moveBallY s).ballVelocity.y = -s.ballVelocity.y) ∧
    (s.ball.y + s.ballVelocity.y > windowHeight - ballRadius →
      (moveBallY s).ball.y = windowHeight - ballRadius ∧
      (moveBallY s).ballVelocity.y = -s.ballVelocity.y) ∧
    (ballRadius ≤ s.ball.y + s.ballVelocity.y ∧
        s.ball.y + s.ballVelocity.y ≤ windowHeight - ballRadius →
      (moveBallY s).ball.y = s.ball.y + s.ballVelocity.y ∧
      (moveBallY s).ballVelocity.y = s.ballVelocity.y) := by
  unfold moveBallY
  simp only [windowHeight, ballRadius]
  split_ifs <;> (try dsimp only at *) <;> omega

/-- The vertical step as seen from the state at the start of the frame. -/
theorem moved_vertical :
    (s.ball.y + s.ballVelocity.y < ballRadius →
      (moved e s).ball.y = ballRadius ∧
      (moved e s).ballVelocity.y = -s.ballVelocity.y) ∧
    (s.ball.y + s.ballVelocity.y > windowHeight - ballRadius →
      (moved e s).ball.y = windowHeight - ballRadius ∧
      (moved e s).ballVelocity.y = -s.ballVelocity.y) ∧
    (ballRadius ≤ s.ball.y + s.ballVelocity.y ∧
        s.ball.y + s.ballVelocity.y ≤ windowHeight - ballRadius →
      (moved e s).ball.y = s.ball.y + s.ballVelocity.y ∧
      (moved e s).ballVelocity.y = s.ballVelocity.y) := by
  have h := moveBallY_spec (moveBallX (moveOpponentPaddle (movePlayerPaddle e s)))
  simpa [moved] using h

/-- The moves before the collision tests leave `vx` and both paddles' x alone. -/
theorem moved_horizontal :
    (moved e s).ballVelocity.x = s.ballVelocity.x ∧
    (moved e s).playerPaddle.x = s.playerPaddle.x ∧
    (moved e s).opponentPaddle.x = s.opponentPaddle.x := by
  simp [moved]

/-- Response to a reported collision with the player paddle (lines 191-207). -/
theorem collide_player
    (h : e.CheckCollisionCircleRec s.ball ballRadius s.playerPaddle = true) :
    (collide e s).ball.x = s.playerPaddle.x + paddleWidth + ballRadius ∧
    (collide e s).ballVelocity.x
      = (if e.randomValue = 0 then ballSpeedFast else ballSpeed) ∧
    (collide e s).ballVelocity.y
      = (if s.ballVelocity.y < 0 then -1 else 1)
        * (if e.randomValue = 0 then ballSpeedFast else ballSpeed) ∧
    (collide e s).ballColor = (if e.randomValue = 0 then Color.RED else Color.BLUE) := by
  unfold collide
  simp only [h, if_true]
  split_ifs <;> simp

/-- Response to a reported collision with the opponent paddle (lines 208-224). -/
theorem collide_opponent
    (h1 : e.CheckCollisionCircleRec s.ball ballRadius s.playerPaddle = false)
    (h2 : e.CheckCollisionCircleRec s.ball ballRadius s.opponentPaddle = true) :
    (collide e s).ball.x = s.opponentPaddle.x - ballDiameter ∧
    (collide e s).ballVelocity.x
      = (if e.randomValue = 0 then -ballSpeedFast else -ballSpeed) ∧
    (collide e s).ballVelocity.y
      = (if s.ballVelocity.y < 0 then -1 else 1)
        * (if e.randomValue = 0 then ballSpeedFast else ballSpeed) ∧
    (collide e s).ballColor = (if e.randomValue = 0 then Color.RED else Color.BLUE) := by
  unfold collide
  simp only [h1, h2, if_true, Bool.false_eq_true, if_false]
  split_ifs <;> simp

/-- Without a reported collision the last step changes nothing. -/
theorem collide_none
    (h1 : e.CheckCollisionCircleRec s.ball ballRadius s.playerPaddle = false)
    (h2 : e.CheckCollisionCircleRec s.ball ballRadius s.opponentPaddle = false) :
    collide e s = s := by
  unfold collide
  simp only [h1, h2, Bool.false_eq_true, if_false]

/-- The velocity after a collision response, in either branch: the speed is the one
rolled, `vx` points away from the paddle hit and `vy` keeps the side of zero it was
on (zero counting as downwards). -/
theorem collide_velocity
    (h : e.CheckCollisionCircleRec s.ball ballRadius s.playerPaddle = true ∨
      e.CheckCollisionCircleRec s.ball ballRadius s.opponentPaddle = true) :
    ((collide e s).ballVelocity.x = 8 ∨ (collide e s).ballVelocity.x = -8 ∨
      (collide e s).ballVelocity.x = 16 ∨ (collide e s).ballVelocity.x = -16) ∧
    ((collide e s).ballVelocity.y = (collide e s).ballVelocity.x ∨
      (collide e s).ballVelocity.y = -(collide e s).ballVelocity.x) ∧
    (s.ballVelocity.y < 0 → (collide e s).ballVelocity.y < 0) ∧
    (0 ≤ s.ballVelocity.y → 0 < (collide e s).ballVelocity.y) ∧
    (e.randomValue = 0 →
      ((collide e s).ballVelocity.x = 16 ∨ (collide e s).ballVelocity.x = -16) ∧
      (collide e s).ballColor = Color.RED) ∧
    (e.randomValue ≠ 0 →
      ((collide e s).ballVelocity.x = 8 ∨ (collide e s).ballVelocity.x = -8) ∧
      (collide e s).ballColor = Color.BLUE) := by
  cases hp : e.CheckCollisionCircleRec s.ball ballRadius s.playerPaddle with
  | true =>
    obtain ⟨-, hx, hy, hc⟩ := collide_player e s hp
    rw [hx, hy, hc]
    simp only [ballSpeed, ballSpeedFast]
    split_ifs <;> simp_all
  | false =>
    have ho : e.CheckCollisionCircleRec s.ball ballRadius s.opponentPaddle = true := by
      rcases h with h | h
      · rw [hp] at h; cases h
      · exact h
    obtain ⟨-, hx, hy, hc⟩ := collide_opponent e s hp ho
    rw [hx, hy, hc]
    simp only [ballSpeed, ballSpeedFast]
    split_ifs <;> simp_all

end BallSteps


/-- The collision step never turns `vy` around, whether or not a collision is
reported. -/
theorem collide_vy_side (e : Env) (s : Game) :
    (s.ballVelocity.y < 0 → (collide e s).ballVelocity.y < 0) ∧
    (0 < s.ballVelocity.y → 0 < (collide e s).ballVelocity.y) := by
  cases hp : e.CheckCollisionCircleRec s.ball ballRadius s.playerPaddle with
  | true =>
    obtain ⟨-, -, h3, h4, -⟩ := collide_velocity e s (Or.inl hp)
    exact ⟨h3, fun h => h4 (le_of_lt h)⟩
  | false =>
    cases ho : e.CheckCollisionCircleRec s.ball ballRadius s.opponentPaddle with
    | true =>
      obtain ⟨-, -, h3, h4, -⟩ := collide_velocity e s (Or.inr ho)
      exact ⟨h3, fun h => h4 (le_of_lt h)⟩
    | false =>
      rw [collide_none e s hp ho]
      exact ⟨id, id⟩

/-- A Play frame in which some paddle collision is reported runs a collision
response on the moved state. -/
theorem hits_iff_check (e : Env) (s : Game) :
    (hitsPlayer e s = true ∨ hitsOpponent e s = true) ↔
    (e.CheckCollisionCircleRec (moved e s).ball ballRadius (moved e s).playerPaddle = true ∨
      e.CheckCollisionCircleRec (moved e s).ball ballRadius (moved e s).opponentPaddle = true) :=
  Iff.rfl


/-! ## Phases -/

/-- The horizontal step keeps the phase or ends it in Score. -/
theorem moveBallX_gameState (s : Game) :
    (moveBallX s).gameState = s.gameState ∨ (moveBallX s).gameState = GameState.score := by
  unfold moveBallX
  simp only []
  split_ifs <;> simp

/-- No frame ends in the Start phase unless it began there. -/
theorem Update_gameState_start (e : Env) (s : Game)
    (h : (Update e s).gameState = GameState.start) : s.gameState = GameState.start := by
  cases hg : s.gameState with
  | start => rfl
  | play =>
    rw [Update_play e s hg] at h
    simp only [updatePlay, moved, collide_gameState, moveBallY_gameState] at h
    rcases moveBallX_gameState (moveOpponentPaddle (movePlayerPaddle e s)) with h' | h'
    · rw [h'] at h
      simp only [moveOpponentPaddle_gameState, movePlayerPaddle_gameState] at h
      rw [hg] at h; cases h
    · rw [h'] at h; cases h
  | score =>
    rw [Update_score e s hg] at h
    cases hk : e.keySpace with
    | false =>
      rw [(updateScore_idle e s hk).2.2.2.2.2.1, hg] at h; cases h
    | true =>
      rw [updateScore_restart e s hk] at h; cases h

/-- Invariant of the reachable states: in the Start phase the ball is where `Init`
put it, at the centre of the field. -/
theorem Reachable.start_ball {s : Game} (h : Reachable s)
    (hs : s.gameState = GameState.start) : s.ball = { x := 480, y := 270 } := by
  induction h with
  | init => rfl
  | update e s _ ih =>
    have hg := Update_gameState_start e s hs
    rw [Update_start e s hg, updateStart_ball]
    exact ih hg

/-! ## Scoring (lines 166-179) -/

/-- C1: in the Play phase, a ball whose new x is below 0 ends the frame in the Score
phase with `rightScore` one higher, `leftScore` unchanged and `leftScoredLast` false;
a ball whose new x is above `windowWidth - ballDiameter` ends it in the Score phase
with `leftScore` one higher, `rightScore` unchanged and `leftScoredLast` true. -/
theorem Update_play_scores (e : Env) (s : Game) (hplay : s.gameState = GameState.play) :
    (s.ball.x + s.ballVelocity.x < 0 →
      (Update e s).gameState = GameState.score ∧
      (Update e s).rightScore = s.rightScore + 1 ∧
      (Update e s).leftScore = s.leftScore ∧
      (Update e s).leftScoredLast = false) ∧
    (s.ball.x + s.ballVelocity.x > windowWidth - ballDiameter →
      (Update e s).gameState = GameState.score ∧
      (Update e s).leftScore = s.leftScore + 1 ∧
      (Update e s).rightScore = s.rightScore ∧
      (Update e s).leftScoredLast = true) := by
  rw [Update_play e s hplay]
  simp only [updatePlay, moved, collide_gameState, collide_leftScore, collide_rightScore,
    collide_leftScoredLast, moveBallY_gameState, moveBallY_leftScore, moveBallY_rightScore,
    moveBallY_leftScoredLast]
  constructor
  · intro hx
    simp [moveBallX, hx]
  · intro hx
    have hx0 : ¬ (s.ball.x + s.ballVelocity.x < 0) := by
      simp only [windowWidth, ballDiameter, ballRadius] at hx; omega
    simp [moveBallX, hx, hx0]

/-- C1, the scenario of the specification: ball at x = 959 moving right at speed 8
with `leftScore = 0`. -/
theorem Update_play_scores_witness :
    (playAt 959 270 8 8).gameState = GameState.play ∧
    (playAt 959 270 8 8).ball.x + (playAt 959 270 8 8).ballVelocity.x
      > windowWidth - ballDiameter ∧
    (playAt 959 270 8 8).leftScore = 0 ∧
    (Update idleEnv (playAt 959 270 8 8)).gameState = GameState.score ∧
    (Update idleEnv (playAt 959 270 8 8)).leftScore = 1 ∧
    (Update idleEnv (playAt 959 270 8 8)).rightScore = 0 ∧
    (Update idleEnv (playAt 959 270 8 8)).leftScoredLast = true :=
  ⟨rfl, by decide, rfl,
    (Update_play_scores idleEnv (playAt 959 270 8 8) rfl).2 (by decide)⟩

/-! ## Vertical ranges (lines 150-165 and 180-190) -/

/-- C2: after a Play frame both paddles' y lie in `[0, windowHeight - paddleHeight]`,
whatever they were before and whatever keys are held; and in every state reachable
from `Init` both paddles' y lie in that range. -/
theorem paddles_in_range (e : Env) (s : Game) :
    (s.gameState = GameState.play →
      (0 ≤ (Update e s).playerPaddle.y ∧ (Update e s).playerPaddle.y ≤ 460) ∧
      (0 ≤ (Update e s).opponentPaddle.y ∧ (Update e s).opponentPaddle.y ≤ 460)) ∧
    (Reachable s →
      (0 ≤ s.playerPaddle.y ∧ s.playerPaddle.y ≤ 460) ∧
      (0 ≤ s.opponentPaddle.y ∧ s.opponentPaddle.y ≤ 460)) := by
  constructor
  · intro hplay
    rw [Update_play e s hplay, (updatePlay_paddles e s).1, (updatePlay_paddles e s).2]
    exact ⟨movePlayerPaddle_y_range e s, moveOpponentPaddle_y_range _⟩
  · intro hr
    exact ⟨hr.vertical_ranges.1, hr.vertical_ranges.2.1⟩

/-- C2 at the first Play state of a run, with the up key held. -/
theorem paddles_in_range_witness :
    (Update (startEnv 0 0) Init).gameState = GameState.play ∧
    Reachable (Update (startEnv 0 0) Init) ∧
    ((0 ≤ (Update (keysEnv true false) (Update (startEnv 0 0) Init)).playerPaddle.y ∧
      (Update (keysEnv true false) (Update (startEnv 0 0) Init)).playerPaddle.y ≤ 460) ∧
     (0 ≤ (Update (keysEnv true false) (Update (startEnv 0 0) Init)).opponentPaddle.y ∧
      (Update (keysEnv true false) (Update (startEnv 0 0) Init)).opponentPaddle.y ≤ 460)) ∧
    ((0 ≤ (Update (startEnv 0 0) Init).playerPaddle.y ∧
      (Update (startEnv 0 0) Init).playerPaddle.y ≤ 460) ∧
     (0 ≤ (Update (startEnv 0 0) Init).opponentPaddle.y ∧
      (Update (startEnv 0 0) Init).opponentPaddle.y ≤ 460)) :=
  ⟨rfl, Reachable.update _ _ Reachable.init,
    (paddles_in_range (keysEnv true false) (Update (startEnv 0 0) Init)).1 rfl,
    (paddles_in_range (keysEnv true false) (Update (startEnv 0 0) Init)).2
      (Reachable.update _ _ Reachable.init)⟩

/-- C3: after a Play frame the ball's y lies in `[ballRadius, windowHeight - ballRadius]`;
and in every state reachable from `Init` the ball's y lies in that range. -/
theorem ball_y_in_range (e : Env) (s : Game) :
    (s.gameState = GameState.play →
      20 ≤ (Update e s).ball.y ∧ (Update e s).ball.y ≤ 520) ∧
    (Reachable s → 20 ≤ s.ball.y ∧ s.ball.y ≤ 520) := by
  constructor
  · intro hplay
    rw [Update_play e s hplay]
    simp only [updatePlay, moved, collide_ball_y]
    exact moveBallY_y_range _
  · intro hr
    exact hr.vertical_ranges.2.2

/-- C3 at a Play state whose ball is about to pass the top margin, and at the first
Play state of a run. -/
theorem ball_y_in_range_witness :
    (playAt 480 24 8 (-8)).gameState = GameState.play ∧
    Reachable (Update (startEnv 0 0) Init) ∧
    (20 ≤ (Update idleEnv (playAt 480 24 8 (-8))).ball.y ∧
      (Update idleEnv (playAt 480 24 8 (-8))).ball.y ≤ 520) ∧
    (20 ≤ (Update (startEnv 0 0) Init).ball.y ∧ (Update (startEnv 0 0) Init).ball.y ≤ 520) :=
  ⟨rfl, Reachable.update _ _ Reachable.init,
    (ball_y_in_range idleEnv (playAt 480 24 8 (-8))).1 rfl,
    (ball_y_in_range idleEnv (Update (startEnv 0 0) Init)).2
      (Reachable.update _ _ Reachable.init)⟩

/-! ## Wall bounce (lines 180-190) -/

/-- C4 as stated fails when a paddle collision is reported in the frame of the
bounce: in `cornerShot` the ball passes the top margin with velocity `(-16, -16)` and
touches the player paddle; the frame ends with velocity `(8, 8)`, so `vy` is not the
negation of the old `vy` and `vx` is not the old `vx`. -/
theorem wall_bounce_counterexample :
    cornerShot.gameState = GameState.play ∧
    cornerShot.ball.y + cornerShot.ballVelocity.y < 20 ∧
    hitsPlayer idleEnv cornerShot = true ∧
    cornerShot.ballVelocity = { x := -16, y := -16 } ∧
    (Update idleEnv cornerShot).ballVelocity = { x := 8, y := 8 } ∧
    (Update idleEnv cornerShot).ballVelocity.y ≠ -cornerShot.ballVelocity.y ∧
    (Update idleEnv cornerShot).ballVelocity.x ≠ cornerShot.ballVelocity.x := by
  decide

/-- C4, amended: in a Play frame whose vertical move takes the ball past a margin,
`ball.y` is set to the margin crossed and the direction of `vy` is turned around; when
no paddle collision is reported in that frame the new `vy` is exactly the negation of
the old `vy` and `vx` is unchanged.  When `ball.y + vy` stays within `[20, 520]` the
direction of `vy` is not turned around (and without a collision `vy` is unchanged). -/
theorem wall_bounce (e : Env) (s : Game) (hplay : s.gameState = GameState.play) :
    (s.ball.y + s.ballVelocity.y < 20 →
      (Update e s).ball.y = 20 ∧
      (s.ballVelocity.y < 0 → 0 < (Update e s).ballVelocity.y) ∧
      (0 < s.ballVelocity.y → (Update e s).ballVelocity.y < 0)) ∧
    (s.ball.y + s.ballVelocity.y > 520 →
      (Update e s).ball.y = 520 ∧
      (s.ballVelocity.y < 0 → 0 < (Update e s).ballVelocity.y) ∧
      (0 < s.ballVelocity.y → (Update e s).ballVelocity.y < 0)) ∧
    (s.ball.y + s.ballVelocity.y < 20 ∨ s.ball.y + s.ballVelocity.y > 520 →
      hitsPlayer e s = false → hitsOpponent e s = false →
      (Update e s).ballVelocity.y = -s.ballVelocity.y ∧
      (Update e s).ballVelocity.x = s.ballVelocity.x) ∧
    (20 ≤ s.ball.y + s.ballVelocity.y ∧ s.ball.y + s.ballVelocity.y ≤ 520 →
      (s.ballVelocity.y < 0 → (Update e s).ballVelocity.y < 0) ∧
      (0 < s.ballVelocity.y → 0 < (Update e s).ballVelocity.y) ∧
      (hitsPlayer e s = false → hitsOpponent e s = false →
        (Update e s).ballVelocity.y = s.ballVelocity.y)) := by
  rw [Update_play e s hplay]
  simp only [updatePlay, collide_ball_y]
  obtain ⟨hlo, hhi, hmid⟩ := moved_vertical e s
  obtain ⟨hside1, hside2⟩ := collide_vy_side e (moved e s)
  simp only [windowHeight, ballRadius] at hlo hhi hmid
  have hhi' : s.ball.y + s.ballVelocity.y > 520 →
      (moved e s).ball.y = 520 ∧ (moved e s).ballVelocity.y = -s.ballVelocity.y := by
    intro h; exact hhi (by omega)
  have hmid' : 20 ≤ s.ball.y + s.ballVelocity.y ∧ s.ball.y + s.ballVelocity.y ≤ 520 →
      (moved e s).ball.y = s.ball.y + s.ballVelocity.y ∧
      (moved e s).ballVelocity.y = s.ballVelocity.y := by
    intro h; exact hmid (by omega)
  refine ⟨?_, ?_, ?_, ?_⟩
  · intro h
    obtain ⟨hy, hv⟩ := hlo h
    exact ⟨hy, fun hneg => hside2 (by omega), fun hpos => hside1 (by omega)⟩
  · intro h
    obtain ⟨hy, hv⟩ := hhi' h
    exact ⟨hy, fun hneg => hside2 (by omega), fun hpos => hside1 (by omega)⟩
  · intro h hp ho
    rw [collide_none e (moved e s) hp ho]
    refine ⟨?_, (moved_horizontal e s).1⟩
    rcases h with h | h
    · exact (hlo h).2
    · exact (hhi' h).2
  · intro h
    obtain ⟨-, hv⟩ := hmid' h
    refine ⟨fun hneg => hside1 (by omega), fun hpos => hside2 (by omega), ?_⟩
    intro hp ho
    rw [collide_none e (moved e s) hp ho]
    exact hv

/-- C4, amended, at a ball that passes the top margin away from both paddles. -/
theorem wall_bounce_witness :
    (playAt 480 24 8 (-8)).gameState = GameState.play ∧
    (playAt 480 24 8 (-8)).ball.y + (playAt 480 24 8 (-8)).ballVelocity.y < 20 ∧
    hitsPlayer idleEnv (playAt 480 24 8 (-8)) = false ∧
    hitsOpponent idleEnv (playAt 480 24 8 (-8)) = false ∧
    (Update idleEnv (playAt 480 24 8 (-8))).ball.y = 20 ∧
    (Update idleEnv (playAt 480 24 8 (-8))).ballVelocity.y
      = -(playAt 480 24 8 (-8)).ballVelocity.y ∧
    (Update idleEnv (playAt 480 24 8 (-8))).ballVelocity.x
      = (playAt 480 24 8 (-8)).ballVelocity.x :=
  ⟨rfl, by decide, rfl, rfl,
    ((wall_bounce idleEnv (playAt 480 24 8 (-8)) rfl).1 (by decide)).1,
    (wall_bounce idleEnv (playAt 480 24 8 (-8)) rfl).2.2.1 (Or.inl (by decide)) rfl rfl⟩

/-! ## Paddle collision (lines 191-224) -/

/-- C5 as stated fails for a ball with `vy = 0`: the player paddle is hit, `vy` is 0
just before the collision response and 8 after it, so its sign is not the same. -/
theorem collision_speed_counterexample :
    (playAt 88 270 (-16) 0).gameState = GameState.play ∧
    hitsPlayer idleEnv (playAt 88 270 (-16) 0) = true ∧
    (moved idleEnv (playAt 88 270 (-16) 0)).ballVelocity.y = 0 ∧
    (Update idleEnv (playAt 88 270 (-16) 0)).ballVelocity.y = 8 ∧
    Int.sign (Update idleEnv (playAt 88 270 (-16) 0)).ballVelocity.y
      ≠ Int.sign (moved idleEnv (playAt 88 270 (-16) 0)).ballVelocity.y := by
  decide

/-- C5, amended: in a Play frame in which a collision with either paddle is reported,
after `Update` `|vx|` is 8 or 16, `|vy| = |vx|`, a `vy` that was negative just before
the collision response stays negative and one that was positive stays positive (a `vy`
of zero becomes positive), the colour is red exactly when `|vx| = 16` and blue exactly
when `|vx| = 8`, and `|vx| = 16` exactly when the roll is 0. -/
theorem collision_speed (e : Env) (s : Game) (hplay : s.gameState = GameState.play)
    (hcol : hitsPlayer e s = true ∨ hitsOpponent e s = true) :
    (|(Update e s).ballVelocity.x| = 8 ∨ |(Update e s).ballVelocity.x| = 16) ∧
    |(Update e s).ballVelocity.y| = |(Update e s).ballVelocity.x| ∧
    ((moved e s).ballVelocity.y < 0 → (Update e s).ballVelocity.y < 0) ∧
    (0 < (moved e s).ballVelocity.y → 0 < (Update e s).ballVelocity.y) ∧
    ((moved e s).ballVelocity.y = 0 → 0 < (Update e s).ballVelocity.y) ∧
    ((Update e s).ballColor = Color.RED ↔ |(Update e s).ballVelocity.x| = 16) ∧
    ((Update e s).ballColor = Color.BLUE ↔ |(Update e s).ballVelocity.x| = 8) ∧
    (|(Update e s).ballVelocity.x| = 16 ↔ e.randomValue = 0) := by
  rw [Update_play e s hplay]
  simp only [updatePlay]
  obtain ⟨hx, hy, hneg, hpos, hfast, hnormal⟩ :=
    collide_velocity e (moved e s) ((hits_iff_check e s).1 hcol)
  refine ⟨?_, ?_, hneg, fun h => hpos (le_of_lt h), fun h => hpos (le_of_eq h.symm),
    ?_, ?_, ?_⟩
  · rcases hx with h | h | h | h <;> simp [h]
  · rcases hy with h | h <;> simp [h]
  · by_cases hr : e.randomValue = 0
    · obtain ⟨hv, hc⟩ := hfast hr
      rcases hv with h | h <;> simp [h, hc]
    · obtain ⟨hv, hc⟩ := hnormal hr
      rcases hv with h | h <;> simp [h, hc]
  · by_cases hr : e.randomValue = 0
    · obtain ⟨hv, hc⟩ := hfast hr
      rcases hv with h | h <;> simp [h, hc]
    · obtain ⟨hv, hc⟩ := hnormal hr
      rcases hv with h | h <;> simp [h, hc]
  · by_cases hr : e.randomValue = 0
    · obtain ⟨hv, -⟩ := hfast hr
      rcases hv with h | h <;> simp [h, hr]
    · obtain ⟨hv, -⟩ := hnormal hr
      rcases hv with h | h <;> simp [h, hr]

/-- C5, amended, at a fast roll on the opponent paddle. -/
theorem collision_speed_witness :
    (playAt 874 262 8 8).gameState = GameState.play ∧
    hitsOpponent (rollEnv 0) (playAt 874 262 8 8) = true ∧
    (Update (rollEnv 0) (playAt 874 262 8 8)).ballVelocity
      = { x := -16, y := 16 } ∧
    |(Update (rollEnv 0) (playAt 874 262 8 8)).ballVelocity.y|
      = |(Update (rollEnv 0) (playAt 874 262 8 8)).ballVelocity.x| :=
  ⟨rfl, rfl, rfl,
    (collision_speed (rollEnv 0) (playAt 874 262 8 8) rfl
      (Or.inr rfl)).2.1⟩

/-- C6: in a Play frame in which a collision with the opponent paddle, and not with
the player paddle, is reported, the ball ends at x = `opponentPaddle.x - ballDiameter`
with the y its vertical move gave it, and `vx` is negative; in one in which a collision
with the player paddle is reported, the ball ends at
x = `playerPaddle.x + paddleWidth + ballRadius` with the y its vertical move gave it,
and `vx` is positive. -/
theorem paddle_reposition (e : Env) (s : Game) (hplay : s.gameState = GameState.play) :
    (hitsPlayer e s = false → hitsOpponent e s = true →
      (Update e s).ball.x = s.opponentPaddle.x - ballDiameter ∧
      (Update e s).ball.y = (moved e s).ball.y ∧
      (Update e s).ballVelocity.x < 0) ∧
    (hitsPlayer e s = true →
      (Update e s).ball.x = s.playerPaddle.x + paddleWidth + ballRadius ∧
      (Update e s).ball.y = (moved e s).ball.y ∧
      0 < (Update e s).ballVelocity.x) := by
  rw [Update_play e s hplay]
  simp only [updatePlay, collide_ball_y]
  obtain ⟨-, hpx, hox⟩ := moved_horizontal e s
  constructor
  · intro hp ho
    obtain ⟨hx, hv, -⟩ := collide_opponent e (moved e s) hp ho
    rw [hx, hv, hox]
    refine ⟨rfl, trivial, ?_⟩
    simp only [ballSpeed, ballSpeedFast]
    split_ifs <;> decide
  · intro hp
    obtain ⟨hx, hv, -⟩ := collide_player e (moved e s) hp
    rw [hx, hv, hpx]
    refine ⟨rfl, trivial, ?_⟩
    simp only [ballSpeed, ballSpeedFast]
    split_ifs <;> decide

/-- C6, the scenario of the specification: a ball meeting the opponent paddle with
velocity `(-8, 8)` and a roll that is not 0 ends at x = `opponentPaddle.x - 40` with
velocity `(-8, 8)` and colour blue. -/
theorem paddle_reposition_witness :
    (playAt 890 262 (-8) 8).gameState = GameState.play ∧
    hitsPlayer (rollEnv 1) (playAt 890 262 (-8) 8) = false ∧
    hitsOpponent (rollEnv 1) (playAt 890 262 (-8) 8) = true ∧
    ((Update (rollEnv 1) (playAt 890 262 (-8) 8)).ball.x
        = (playAt 890 262 (-8) 8).opponentPaddle.x - ballDiameter ∧
      (Update (rollEnv 1) (playAt 890 262 (-8) 8)).ball.y
        = (moved (rollEnv 1) (playAt 890 262 (-8) 8)).ball.y ∧
      (Update (rollEnv 1) (playAt 890 262 (-8) 8)).ballVelocity.x < 0) ∧
    (Update (rollEnv 1) (playAt 890 262 (-8) 8)).ball.x
      = (playAt 890 262 (-8) 8).opponentPaddle.x - 40 ∧
    (Update (rollEnv 1) (playAt 890 262 (-8) 8)).ballVelocity = { x := -8, y := 8 } ∧
    (Update (rollEnv 1) (playAt 890 262 (-8) 8)).ballColor = Color.BLUE :=
  ⟨rfl, rfl, rfl, (paddle_reposition (rollEnv 1) (playAt 890 262 (-8) 8) rfl).1 rfl rfl,
    rfl, rfl, rfl⟩

/-- C7 as stated fails for a ball that is already moving away from the paddle it
meets: a ball overlapping the player paddle while moving right at `vx = 8` leaves the
frame with `vx = 8`, so the sign of `vx` is not the opposite of what it was. -/
theorem collision_inverts_vx_counterexample :
    (playAt 60 270 8 8).gameState = GameState.play ∧
    hitsPlayer (rollEnv 1) (playAt 60 270 8 8) = true ∧
    (playAt 60 270 8 8).ballVelocity.x = 8 ∧
    (Update (rollEnv 1) (playAt 60 270 8 8)).ballVelocity.x = 8 ∧
    Int.sign (Update (rollEnv 1) (playAt 60 270 8 8)).ballVelocity.x
      ≠ -Int.sign (playAt 60 270 8 8).ballVelocity.x := by
  decide

/-- C7, amended: in a Play frame in which a paddle collision is reported, `vx` after
`Update` points away from the paddle hit (positive after the player paddle, negative
after the opponent paddle); its sign is the opposite of the sign before the frame
exactly when the ball was moving towards that paddle (`vx < 0` at the player paddle,
`vx > 0` at the opponent paddle). -/
theorem collision_vx_direction (e : Env) (s : Game) (hplay : s.gameState = GameState.play)
    (hcol : hitsPlayer e s = true ∨ hitsOpponent e s = true) :
    (hitsPlayer e s = true → 0 < (Update e s).ballVelocity.x) ∧
    (hitsPlayer e s = false → (Update e s).ballVelocity.x < 0) ∧
    (Int.sign (Update e s).ballVelocity.x = -Int.sign s.ballVelocity.x ↔
      (hitsPlayer e s = true ∧ s.ballVelocity.x < 0) ∨
      (hitsPlayer e s = false ∧ 0 < s.ballVelocity.x)) := by
  have haway : (hitsPlayer e s = true → 0 < (Update e s).ballVelocity.x) ∧
      (hitsPlayer e s = false → (Update e s).ballVelocity.x < 0) := by
    rw [Update_play e s hplay]
    simp only [updatePlay]
    constructor
    · intro hp
      obtain ⟨-, hv, -⟩ := collide_player e (moved e s) hp
      rw [hv]
      simp only [ballSpeed, ballSpeedFast]
      split_ifs <;> decide
    · intro hp
      have ho : hitsOpponent e s = true := by
        rcases hcol with h | h
        · rw [hp] at h; cases h
        · exact h
      obtain ⟨-, hv, -⟩ := collide_opponent e (moved e s) hp ho
      rw [hv]
      simp only [ballSpeed, ballSpeedFast]
      split_ifs <;> decide
  refine ⟨haway.1, haway.2, ?_⟩
  cases hp : hitsPlayer e s with
  | true =>
    have hpos := haway.1 hp
    rw [Int.sign_eq_one_of_pos hpos]
    rcases lt_trichotomy s.ballVelocity.x 0 with h | h | h
    · rw [Int.sign_eq_neg_one_of_neg h]; simp [h]
    · rw [h]; simp
    · rw [Int.sign_eq_one_of_pos h]
      have : ¬ s.ballVelocity.x < 0 := by omega
      simp [this]
  | false =>
    have hneg := haway.2 hp
    rw [Int.sign_eq_neg_one_of_neg hneg]
    rcases lt_trichotomy s.ballVelocity.x 0 with h | h | h
    · rw [Int.sign_eq_neg_one_of_neg h]
      have : ¬ 0 < s.ballVelocity.x := by omega
      simp [this]
    · rw [h]; simp
    · rw [Int.sign_eq_one_of_pos h]; simp [h]

/-- C7, amended, at a ball that reaches the opponent paddle while moving right. -/
theorem collision_vx_direction_witness :
    (playAt 874 262 8 8).gameState = GameState.play ∧
    hitsPlayer (rollEnv 1) (playAt 874 262 8 8) = false ∧
    hitsOpponent (rollEnv 1) (playAt 874 262 8 8) = true ∧
    (playAt 874 262 8 8).ballVelocity.x = 8 ∧
    (Update (rollEnv 1) (playAt 874 262 8 8)).ballVelocity.x < 0 :=
  ⟨rfl, rfl, rfl, rfl,
    (collision_vx_direction (rollEnv 1) (playAt 874 262 8 8) rfl (Or.inr rfl)).2.1 rfl⟩

/-! ## Leaving the Start and Score phases (lines 128-137 and 226-240) -/

/-- C8 as stated fails for a Start state whose ball is not at the centre: the Start
branch does not write the ball position, so a ball at `(100, 100)` is still there when
the frame has switched to Play. -/
theorem restart_ball_counterexample :
    ({ Init with ball := { x := 100, y := 100 } } : Game).gameState = GameState.start ∧
    (startEnv 0 0).keySpace = true ∧
    (Update (startEnv 0 0) { Init with ball := { x := 100, y := 100 } }).gameState
      = GameState.play ∧
    (Update (startEnv 0 0) { Init with ball := { x := 100, y := 100 } }).ball
      = { x := 100, y := 100 } ∧
    (Update (startEnv 0 0) { Init with ball := { x := 100, y := 100 } }).ball
      ≠ { x := 480, y := 270 } := by
  decide

/-- C8, amended: from every Start state reachable from `Init` and from every Score
state, an `Update` with the start key held makes the phase Play, leaves the ball at
the centre `(480, 270)` and sets `vx` to 8 or -8 by the first roll and `vy` to 8 or -8
by the second. -/
theorem restart_ball (e : Env) (s : Game) (hkey : e.keySpace = true)
    (h : (s.gameState = GameState.start ∧ Reachable s) ∨ s.gameState = GameState.score) :
    (Update e s).gameState = GameState.play ∧
    (Update e s).ball = { x := 480, y := 270 } ∧
    (Update e s).ballVelocity.x = (if e.randomX = 0 then 8 else -8) ∧
    (Update e s).ballVelocity.y = (if e.randomY = 0 then 8 else -8) := by
  rcases h with ⟨hs, hr⟩ | hs
  · rw [Update_start e s hs]
    refine ⟨?_, ?_, ?_, ?_⟩
    · simp [updateStart, hkey]
    · rw [updateStart_ball]
      exact hr.start_ball hs
    · simp [updateStart, hkey, ballSpeed]
    · simp [updateStart, hkey, ballSpeed]
  · rw [Update_score e s hs, updateScore_restart e s hkey]
    refine ⟨rfl, ?_, ?_, ?_⟩
    · simp [windowWidth, windowHeight]
    · simp [ballSpeed]
    · simp [ballSpeed]

/-- C8, amended, at `Init` and at a Score state, with rolls 0 and 1. -/
theorem restart_ball_witness :
    (startEnv 0 1).keySpace = true ∧
    (Init.gameState = GameState.start ∧ Reachable Init) ∧
    scoreBoard.gameState = GameState.score ∧
    ((Update (startEnv 0 1) Init).gameState = GameState.play ∧
      (Update (startEnv 0 1) Init).ball = { x := 480, y := 270 } ∧
      (Update (startEnv 0 1) Init).ballVelocity.x = 8 ∧
      (Update (startEnv 0 1) Init).ballVelocity.y = -8) ∧
    ((Update (startEnv 0 1) scoreBoard).gameState = GameState.play ∧
      (Update (startEnv 0 1) scoreBoard).ball = { x := 480, y := 270 } ∧
      (Update (startEnv 0 1) scoreBoard).ballVelocity.x = 8 ∧
      (Update (startEnv 0 1) scoreBoard).ballVelocity.y = -8) :=
  ⟨rfl, ⟨rfl, Reachable.init⟩, rfl,
    restart_ball (startEnv 0 1) Init rfl (Or.inl ⟨rfl, Reachable.init⟩),
    restart_ball (startEnv 0 1) scoreBoard rfl (Or.inr rfl)⟩

/-- C9: from a Score state, an `Update` with the start key held sets the ball colour
to blue, both paddles' y to 230, `scoreElapsed` to 0 and `showScoreText` to true, and
leaves `leftScore`, `rightScore`, `leftScoredLast` and both paddles' x, width and
height unchanged. -/
theorem restart_resets (e : Env) (s : Game) (hscore : s.gameState = GameState.score)
    (hkey : e.keySpace = true) :
    (Update e s).ballColor = Color.BLUE ∧
    (Update e s).playerPaddle.y = 230 ∧
    (Update e s).opponentPaddle.y = 230 ∧
    (Update e s).scoreElapsed = 0 ∧
    (Update e s).showScoreText = true ∧
    (Update e s).leftScore = s.leftScore ∧
    (Update e s).rightScore = s.rightScore ∧
    (Update e s).leftScoredLast = s.leftScoredLast ∧
    ((Update e s).playerPaddle.x = s.playerPaddle.x ∧
      (Update e s).playerPaddle.width = s.playerPaddle.width ∧
      (Update e s).playerPaddle.height = s.playerPaddle.height) ∧
    ((Update e s).opponentPaddle.x = s.opponentPaddle.x ∧
      (Update e s).opponentPaddle.width = s.opponentPaddle.width ∧
      (Update e s).opponentPaddle.height = s.opponentPaddle.height) := by
  rw [Update_score e s hscore, updateScore_restart e s hkey]
  exact ⟨rfl, rfl, rfl, rfl, rfl, rfl, rfl, rfl, ⟨rfl, rfl, rfl⟩, ⟨rfl, rfl, rfl⟩⟩

/-- C9 at a Score state with scores 3 and 2, a red ball and displaced paddles. -/
theorem restart_resets_witness :
    scoreBoard.gameState = GameState.score ∧
    (startEnv 1 0).keySpace = true ∧
    scoreBoard.leftScore = 3 ∧
    scoreBoard.rightScore = 2 ∧
    (Update (startEnv 1 0) scoreBoard).ballColor = Color.BLUE ∧
    (Update (startEnv 1 0) scoreBoard).playerPaddle.y = 230 ∧
    (Update (startEnv 1 0) scoreBoard).opponentPaddle.y = 230 ∧
    (Update (startEnv 1 0) scoreBoard).leftScore = 3 ∧
    (Update (startEnv 1 0) scoreBoard).rightScore = 2 :=
  ⟨rfl, rfl, rfl, rfl,
    (restart_resets (startEnv 1 0) scoreBoard rfl rfl).1,
    (restart_resets (startEnv 1 0) scoreBoard rfl rfl).2.1,
    (restart_resets (startEnv 1 0) scoreBoard rfl rfl).2.2.1,
    (restart_resets (startEnv 1 0) scoreBoard rfl rfl).2.2.2.2.2.1,
    (restart_resets (startEnv 1 0) scoreBoard rfl rfl).2.2.2.2.2.2.1⟩

/-! ## Frames outside the Play phase (lines 128-147 and 226-250) -/

/-- C10: in the Start phase `Update`, with the start key held or not, leaves both
paddles, the ball position, the ball colour, both scores and `leftScoredLast`
unchanged; in the Score phase without the start key it leaves both paddles, the ball
position, velocity and colour, both scores and `leftScoredLast` unchanged. -/
theorem physics_only_in_play (e : Env) (s : Game) :
    (s.gameState = GameState.start →
      (Update e s).playerPaddle = s.playerPaddle ∧
      (Update e s).opponentPaddle = s.opponentPaddle ∧
      (Update e s).ball = s.ball ∧
      (Update e s).ballColor = s.ballColor ∧
      (Update e s).leftScore = s.leftScore ∧
      (Update e s).rightScore = s.rightScore ∧
      (Update e s).leftScoredLast = s.leftScoredLast) ∧
    (s.gameState = GameState.score → e.keySpace = false →
      (Update e s).playerPaddle = s.playerPaddle ∧
      (Update e s).opponentPaddle = s.opponentPaddle ∧
      (Update e s).ball = s.ball ∧
      (Update e s).ballVelocity = s.ballVelocity ∧
      (Update e s).ballColor = s.ballColor ∧
      (Update e s).leftScore = s.leftScore ∧
      (Update e s).rightScore = s.rightScore ∧
      (Update e s).leftScoredLast = s.leftScoredLast) := by
  constructor
  · intro hs
    rw [Update_start e s hs]
    simp
  · intro hs hk
    rw [Update_score e s hs]
    obtain ⟨h1, h2, h3, h4, h5, -, h7, h8, h9⟩ := updateScore_idle e s hk
    exact ⟨h1, h2, h3, h4, h5, h7, h8, h9⟩

/-- C10 at the Start to Play frame from `Init` (the paddles are unmoved) and at an
idle frame of a Score state. -/
theorem physics_only_in_play_witness :
    Init.gameState = GameState.start ∧
    (Update (startEnv 0 0) Init).gameState = GameState.play ∧
    (Update (startEnv 0 0) Init).playerPaddle = Init.playerPaddle ∧
    (Update (startEnv 0 0) Init).opponentPaddle = Init.opponentPaddle ∧
    scoreBoard.gameState = GameState.score ∧
    idleEnv.keySpace = false ∧
    (Update idleEnv scoreBoard).ball = scoreBoard.ball ∧
    (Update idleEnv scoreBoard).ballVelocity = scoreBoard.ballVelocity :=
  ⟨rfl, rfl,
    ((physics_only_in_play (startEnv 0 0) Init).1 rfl).1,
    ((physics_only_in_play (startEnv 0 0) Init).1 rfl).2.1,
    rfl, rfl,
    ((physics_only_in_play idleEnv scoreBoard).2 rfl rfl).2.2.1,
    ((physics_only_in_play idleEnv scoreBoard).2 rfl rfl).2.2.2.1⟩

/-! ## Score bookkeeping through the Play branch -/

section Bookkeeping

variable (e : Env) (s : Game)

@[simp]
theorem movePlayerPaddle_showScoreText :
    (movePlayerPaddle e s).showScoreText = s.showScoreText := by
  unfold movePlayerPaddle; simp only []; split_ifs <;> rfl

@[simp]
theorem movePlayerPaddle_scoreElapsed :
    (movePlayerPaddle e s).scoreElapsed = s.scoreElapsed := by
  unfold movePlayerPaddle; simp only []; split_ifs <;> rfl

@[simp]
theorem moveOpponentPaddle_showScoreText :
    (moveOpponentPaddle s).showScoreText = s.showScoreText := by
  unfold moveOpponentPaddle; simp only []; split_ifs <;> rfl

@[simp]
theorem moveOpponentPaddle_scoreElapsed :
    (moveOpponentPaddle s).scoreElapsed = s.scoreElapsed := by
  unfold moveOpponentPaddle; simp only []; split_ifs <;> rfl

@[simp]
theorem moveBallX_scoreElapsed : (moveBallX s).scoreElapsed = s.scoreElapsed := by
  unfold moveBallX; simp only []; split_ifs <;> rfl

@[simp]
theorem moveBallY_showScoreText : (moveBallY s).showScoreText = s.showScoreText := by
  unfold moveBallY; simp only []; split_ifs <;> rfl

@[simp]
theorem moveBallY_scoreElapsed : (moveBallY s).scoreElapsed = s.scoreElapsed := by
  unfold moveBallY; simp only []; split_ifs <;> rfl

@[simp]
theorem collide_showScoreText : (collide e s).showScoreText = s.showScoreText := by
  unfold collide; simp only []; split_ifs <;> rfl

@[simp]
theorem collide_scoreElapsed : (collide e s).scoreElapsed = s.scoreElapsed := by
  unfold collide; simp only []; split_ifs <;> rfl

/-- The score test (lines 167-179), case by case on the ball's new x. -/
theorem moveBallX_spec :
    (s.ball.x + s.ballVelocity.x < 0 →
      (moveBallX s).gameState = GameState.score ∧
      (moveBallX s).leftScore = s.leftScore ∧
      (moveBallX s).rightScore = s.rightScore + 1 ∧
      (moveBallX s).leftScoredLast = false ∧
      (moveBallX s).showScoreText = s.showScoreText) ∧
    (s.ball.x + s.ballVelocity.x > 920 →
      (moveBallX s).gameState = GameState.score ∧
      (moveBallX s).leftScore = s.leftScore + 1 ∧
      (moveBallX s).rightScore = s.rightScore ∧
      (moveBallX s).leftScoredLast = true ∧
      (moveBallX s).showScoreText = true) ∧
    (0 ≤ s.ball.x + s.ballVelocity.x ∧ s.ball.x + s.ballVelocity.x ≤ 920 →
      (moveBallX s).gameState = s.gameState ∧
      (moveBallX s).leftScore = s.leftScore ∧
      (moveBallX s).rightScore = s.rightScore ∧
      (moveBallX s).leftScoredLast = s.leftScoredLast ∧
      (moveBallX s).showScoreText = s.showScoreText) := by
  unfold moveBallX
  simp only [windowWidth, ballDiameter, ballRadius]
  split_ifs with h1 h2
  · refine ⟨fun _ => ⟨rfl, rfl, rfl, rfl, rfl⟩, fun h => ?_, fun h => ?_⟩ <;> omega
  · refine ⟨fun h => ?_, fun _ => ⟨rfl, rfl, rfl, rfl, rfl⟩, fun h => ?_⟩ <;> omega
  · refine ⟨fun h => ?_, fun h => ?_, fun _ => ⟨rfl, rfl, rfl, rfl, rfl⟩⟩ <;> omega

/-- The score test as seen from the state at the start of a Play frame. -/
theorem updatePlay_spec :
    (s.ball.x + s.ballVelocity.x < 0 →
      (updatePlay e s).gameState = GameState.score ∧
      (updatePlay e s).leftScore = s.leftScore ∧
      (updatePlay e s).rightScore = s.rightScore + 1 ∧
      (updatePlay e s).leftScoredLast = false ∧
      (updatePlay e s).showScoreText = s.showScoreText) ∧
    (s.ball.x + s.ballVelocity.x > 920 →
      (updatePlay e s).gameState = GameState.score ∧
      (updatePlay e s).leftScore = s.leftScore + 1 ∧
      (updatePlay e s).rightScore = s.rightScore ∧
      (updatePlay e s).leftScoredLast = true ∧
      (updatePlay e s).showScoreText = true) ∧
    (0 ≤ s.ball.x + s.ballVelocity.x ∧ s.ball.x + s.ballVelocity.x ≤ 920 →
      (updatePlay e s).gameState = s.gameState ∧
      (updatePlay e s).leftScore = s.leftScore ∧
      (updatePlay e s).rightScore = s.rightScore ∧
      (updatePlay e s).leftScoredLast = s.leftScoredLast ∧
      (updatePlay e s).showScoreText = s.showScoreText) := by
  have h := moveBallX_spec (moveOpponentPaddle (movePlayerPaddle e s))
  simpa [updatePlay, moved] using h

/-- The Play branch leaves `scoreElapsed` alone. -/
theorem updatePlay_scoreElapsed : (updatePlay e s).scoreElapsed = s.scoreElapsed := by
  simp [updatePlay, moved]

/-- Outside the Play phase no frame changes a score counter. -/
theorem Update_scores_idle (h : s.gameState ≠ GameState.play) :
    (Update e s).leftScore = s.leftScore ∧ (Update e s).rightScore = s.rightScore := by
  cases hg : s.gameState with
  | start => rw [Update_start e s hg]; simp
  | play => exact absurd hg h
  | score =>
    rw [Update_score e s hg]
    cases hk : e.keySpace with
    | false =>
      obtain ⟨-, -, -, -, -, -, h7, h8, -⟩ := updateScore_idle e s hk
      exact ⟨h7, h8⟩
    | true => rw [updateScore_restart e s hk]; exact ⟨rfl, rfl⟩

/-- Both counters after one frame, in closed form. -/
theorem Update_scores :
    (Update e s).leftScore
      = (if s.gameState = GameState.play ∧ s.ball.x + s.ballVelocity.x > 920
          then s.leftScore + 1 else s.leftScore) ∧
    (Update e s).rightScore
      = (if s.gameState = GameState.play ∧ s.ball.x + s.ballVelocity.x < 0
          then s.rightScore + 1 else s.rightScore) := by
  by_cases hg : s.gameState = GameState.play
  · rw [Update_play e s hg]
    obtain ⟨hlo, hhi, hmid⟩ := updatePlay_spec e s
    simp only [hg, true_and]
    rcases lt_trichotomy (s.ball.x + s.ballVelocity.x) 0 with h | h | h
    · obtain ⟨-, hl, hr, -⟩ := hlo h
      have h' : ¬ s.ball.x + s.ballVelocity.x > 920 := by omega
      rw [hl, hr, if_neg h', if_pos h]; exact ⟨rfl, rfl⟩
    · obtain ⟨-, hl, hr, -⟩ := hmid (by omega)
      have h1 : ¬ s.ball.x + s.ballVelocity.x > 920 := by omega
      have h2 : ¬ s.ball.x + s.ballVelocity.x < 0 := by omega
      rw [hl, hr, if_neg h1, if_neg h2]; exact ⟨rfl, rfl⟩
    · have h2 : ¬ s.ball.x + s.ballVelocity.x < 0 := by omega
      by_cases h3 : s.ball.x + s.ballVelocity.x > 920
      · obtain ⟨-, hl, hr, -⟩ := hhi h3
        rw [hl, hr, if_pos h3, if_neg h2]; exact ⟨rfl, rfl⟩
      · obtain ⟨-, hl, hr, -⟩ := hmid (by omega)
        rw [hl, hr, if_neg h3, if_neg h2]; exact ⟨rfl, rfl⟩
  · obtain ⟨hl, hr⟩ := Update_scores_idle e s hg
    rw [hl, hr]
    simp [hg]

end Bookkeeping

/-- Invariant of the reachable states: no counter is negative. -/
theorem Reachable.scores_nonneg {s : Game} (h : Reachable s) :
    0 ≤ s.leftScore ∧ 0 ≤ s.rightScore := by
  induction h with
  | init => decide
  | update e s _ ih =>
    obtain ⟨hl, hr⟩ := Update_scores e s
    rw [hl, hr]
    constructor
    · split_ifs <;> omega
    · split_ifs <;> omega

/-! ## Score counters (lines 121-122 and 166-179) -/

/-- C11: in every state reachable from `Init` both counters are non-negative; a
single `Update` never decreases a counter: it leaves both unchanged or increments
exactly one of them by exactly 1, and it increments one exactly when it starts in the
Play phase and the ball's new x is below 0 or above `windowWidth - ballDiameter`. -/
theorem scores_monotone (e : Env) (s : Game) :
    (Reachable s → 0 ≤ s.leftScore ∧ 0 ≤ s.rightScore) ∧
    (s.leftScore ≤ (Update e s).leftScore ∧ s.rightScore ≤ (Update e s).rightScore) ∧
    (((Update e s).leftScore = s.leftScore ∧ (Update e s).rightScore = s.rightScore) ∨
      ((Update e s).leftScore = s.leftScore + 1 ∧
        (Update e s).rightScore = s.rightScore) ∨
      ((Update e s).leftScore = s.leftScore ∧
        (Update e s).rightScore = s.rightScore + 1)) ∧
    ((((Update e s).leftScore = s.leftScore + 1 ∧
          (Update e s).rightScore = s.rightScore) ∨
        ((Update e s).leftScore = s.leftScore ∧
          (Update e s).rightScore = s.rightScore + 1)) ↔
      (s.gameState = GameState.play ∧
        (s.ball.x + s.ballVelocity.x < 0 ∨
          s.ball.x + s.ballVelocity.x > windowWidth - ballDiameter))) := by
  obtain ⟨hl, hr⟩ := Update_scores e s
  rw [hl, hr]
  simp only [windowWidth, ballDiameter, ballRadius]
  refine ⟨fun h => h.scores_nonneg, ?_, ?_, ?_⟩
  · constructor <;> split_ifs <;> omega
  · by_cases hg : s.gameState = GameState.play
    · simp only [hg, true_and]
      split_ifs <;> omega
    · simp [hg]
  · by_cases hg : s.gameState = GameState.play
    · simp only [hg, true_and]
      split_ifs <;> omega
    · simp [hg]

/-- C11 at the first Play state of a run, which is reachable and scores nothing in
its next frame, and at a ball leaving the field on the left. -/
theorem scores_monotone_witness :
    Reachable (Update (startEnv 0 0) Init) ∧
    (0 ≤ (Update (startEnv 0 0) Init).leftScore ∧
      0 ≤ (Update (startEnv 0 0) Init).rightScore) ∧
    ((playAt 4 270 (-8) 8).gameState = GameState.play ∧
      ((playAt 4 270 (-8) 8).ball.x + (playAt 4 270 (-8) 8).ballVelocity.x < 0 ∨
        (playAt 4 270 (-8) 8).ball.x + (playAt 4 270 (-8) 8).ballVelocity.x
          > windowWidth - ballDiameter)) ∧
    (((Update idleEnv (playAt 4 270 (-8) 8)).leftScore
          = (playAt 4 270 (-8) 8).leftScore + 1 ∧
        (Update idleEnv (playAt 4 270 (-8) 8)).rightScore
          = (playAt 4 270 (-8) 8).rightScore) ∨
      ((Update idleEnv (playAt 4 270 (-8) 8)).leftScore
          = (playAt 4 270 (-8) 8).leftScore ∧
        (Update idleEnv (playAt 4 270 (-8) 8)).rightScore
          = (playAt 4 270 (-8) 8).rightScore + 1)) :=
  ⟨Reachable.update _ _ Reachable.init,
    (scores_monotone idleEnv (Update (startEnv 0 0) Init)).1
      (Reachable.update _ _ Reachable.init),
    ⟨rfl, Or.inl (by decide)⟩,
    (scores_monotone idleEnv (playAt 4 270 (-8) 8)).2.2.2.2 ⟨rfl, Or.inl (by decide)⟩⟩

/-! ## Velocity and colour -/

/-- The Start branch with the start key held, field by field. -/
theorem updateStart_go (e : Env) (s : Game) (h : e.keySpace = true) :
    updateStart e s =
      { s with
        startElapsed := 0
        showStartText := true
        gameState := GameState.play
        ballVelocity :=
          { x := if e.randomX = 0 then ballSpeed else -ballSpeed
            y := if e.randomY = 0 then ballSpeed else -ballSpeed } } := by
  unfold updateStart
  simp only [h, if_true]

/-- The Start branch without the start key keeps the phase, the velocity and the
score flag and timer. -/
theorem updateStart_idle (e : Env) (s : Game) (h : e.keySpace = false) :
    (updateStart e s).gameState = s.gameState ∧
    (updateStart e s).ballVelocity = s.ballVelocity ∧
    (updateStart e s).showScoreText = s.showScoreText ∧
    (updateStart e s).scoreElapsed = s.scoreElapsed := by
  unfold updateStart
  simp only [h, Bool.false_eq_true, if_false]
  split_ifs <;> simp

/-- The two velocities a restart can choose are fine with a blue ball. -/
theorem VelocityOk.restart (rx ry : Int) :
    VelocityOk
      { x := if rx = 0 then ballSpeed else -ballSpeed
        y := if ry = 0 then ballSpeed else -ballSpeed } Color.BLUE := by
  unfold VelocityOk
  simp only [ballSpeed]
  split_ifs <;> simp

/-- The vertical step keeps `vy` or negates it. -/
theorem moveBallY_vy (s : Game) :
    (moveBallY s).ballVelocity.y = s.ballVelocity.y ∨
    (moveBallY s).ballVelocity.y = -s.ballVelocity.y := by
  unfold moveBallY
  simp only []
  split_ifs <;> simp

/-- The moves of a Play frame keep velocity and colour fitting together. -/
theorem VelocityOk.after_moves (e : Env) (s : Game) (h : VelocityOk s.ballVelocity s.ballColor) :
    VelocityOk (moved e s).ballVelocity (moved e s).ballColor ∧
    (moved e s).ballVelocity.x = s.ballVelocity.x := by
  obtain ⟨hx, hy, hc⟩ := h
  have hvx := (moved_horizontal e s).1
  have hvy : (moved e s).ballVelocity.y = s.ballVelocity.y ∨
      (moved e s).ballVelocity.y = -s.ballVelocity.y := by
    have := moveBallY_vy (moveBallX (moveOpponentPaddle (movePlayerPaddle e s)))
    simpa [moved] using this
  have hcol : (moved e s).ballColor = s.ballColor := by simp [moved]
  refine ⟨⟨?_, ?_, ?_⟩, hvx⟩
  · rw [hvx]; exact hx
  · rw [hvx]; omega
  · rw [hvx, hcol]; exact hc

/-- The collision step keeps velocity and colour fitting together, and never stops
the ball. -/
theorem VelocityOk.after_collide (e : Env) (s : Game) (h : VelocityOk s.ballVelocity s.ballColor) :
    VelocityOk (collide e s).ballVelocity (collide e s).ballColor ∧
    (s.ballVelocity.x ≠ 0 → (collide e s).ballVelocity.x ≠ 0) := by
  cases hp : e.CheckCollisionCircleRec s.ball ballRadius s.playerPaddle with
  | true =>
    obtain ⟨hx, hy, -, -, hfast, hnormal⟩ := collide_velocity e s (Or.inl hp)
    refine ⟨⟨by omega, hy, ?_⟩, fun _ => by omega⟩
    by_cases hr : e.randomValue = 0
    · obtain ⟨hv, hc⟩ := hfast hr
      simp [hc, hv]
    · obtain ⟨hv, hc⟩ := hnormal hr
      rw [hc]
      constructor
      · intro h'; cases h'
      · intro h'; omega
  | false =>
    cases ho : e.CheckCollisionCircleRec s.ball ballRadius s.opponentPaddle with
    | true =>
      obtain ⟨hx, hy, -, -, hfast, hnormal⟩ := collide_velocity e s (Or.inr ho)
      refine ⟨⟨by omega, hy, ?_⟩, fun _ => by omega⟩
      by_cases hr : e.randomValue = 0
      · obtain ⟨hv, hc⟩ := hfast hr
        simp [hc, hv]
      · obtain ⟨hv, hc⟩ := hnormal hr
        rw [hc]
        constructor
        · intro h'; cases h'
        · intro h'; omega
    | false =>
      rw [collide_none e s hp ho]
      exact ⟨h, id⟩

/-- Invariant of the reachable states: velocity and colour fit together, the ball is
blue in the Start phase and it moves in the Play phase. -/
theorem Reachable.velocity {s : Game} (h : Reachable s) :
    VelocityOk s.ballVelocity s.ballColor ∧
    (s.gameState = GameState.start → s.ballColor = Color.BLUE) ∧
    (s.gameState = GameState.play → s.ballVelocity.x ≠ 0) := by
  induction h with
  | init =>
    refine ⟨?_, fun _ => rfl, fun h => by cases h⟩
    unfold VelocityOk
    decide
  | update e s _ ih =>
    obtain ⟨hv, hblue, hmove⟩ := ih
    cases hg : s.gameState with
    | start =>
      rw [Update_start e s hg]
      cases hk : e.keySpace with
      | false =>
        obtain ⟨h1, h2, -⟩ := updateStart_idle e s hk
        rw [h1, h2, updateStart_ballColor]
        exact ⟨hv, hblue, hmove⟩
      | true =>
        refine ⟨?_, ?_, ?_⟩
        · rw [updateStart_ballColor, hblue hg, updateStart_go e s hk]
          exact VelocityOk.restart _ _
        · rw [updateStart_ballColor]; exact fun _ => hblue hg
        · intro _
          rw [updateStart_go e s hk]
          simp only [ballSpeed]
          split_ifs <;> decide
    | play =>
      rw [Update_play e s hg]
      obtain ⟨hm, hmx⟩ := hv.after_moves e s
      obtain ⟨hc, hnz⟩ := hm.after_collide e
      refine ⟨hc, ?_, ?_⟩
      · intro hs
        have := Update_gameState_start e s (by rw [Update_play e s hg]; exact hs)
        rw [hg] at this; cases this
      · intro _
        exact hnz (by rw [hmx]; exact hmove hg)
    | score =>
      rw [Update_score e s hg]
      cases hk : e.keySpace with
      | false =>
        obtain ⟨-, -, -, h4, h5, h6, -⟩ := updateScore_idle e s hk
        rw [h4, h5, h6]
        exact ⟨hv, hblue, hmove⟩
      | true =>
        rw [updateScore_restart e s hk]
        refine ⟨VelocityOk.restart _ _, fun _ => rfl, fun _ => ?_⟩
        simp only [ballSpeed]
        split_ifs <;> decide

/-- C12: in every state reachable from `Init`, `|vx|` and `|vy|` are each 0, 8 or 16
with `|vx| = |vy|`, the ball is red exactly when the speed is 16 and blue otherwise,
and in the Play phase the speed is not 0. -/
theorem velocity_invariant (s : Game) (h : Reachable s) :
    (|s.ballVelocity.x| = 0 ∨ |s.ballVelocity.x| = 8 ∨ |s.ballVelocity.x| = 16) ∧
    (|s.ballVelocity.y| = 0 ∨ |s.ballVelocity.y| = 8 ∨ |s.ballVelocity.y| = 16) ∧
    |s.ballVelocity.x| = |s.ballVelocity.y| ∧
    (s.ballColor = Color.RED ↔ |s.ballVelocity.x| = 16) ∧
    (s.ballColor = Color.BLUE ↔ |s.ballVelocity.x| ≠ 16) ∧
    (s.gameState = GameState.play →
      |s.ballVelocity.x| ≠ 0 ∧ |s.ballVelocity.y| ≠ 0) := by
  obtain ⟨⟨hx, hy, hc⟩, -, hmove⟩ := h.velocity
  have hxy : |s.ballVelocity.x| = |s.ballVelocity.y| := by
    rcases hy with h' | h' <;> simp [h']
  have hax : |s.ballVelocity.x| = 0 ∨ |s.ballVelocity.x| = 8 ∨ |s.ballVelocity.x| = 16 := by
    rcases hx with h' | h' | h' | h' | h' <;> rw [h'] <;> simp
  have hfast : |s.ballVelocity.x| = 16 ↔ (s.ballVelocity.x = 16 ∨ s.ballVelocity.x = -16) := by
    rw [Int.abs_eq_natAbs]; omega
  have hred : s.ballColor = Color.RED ↔ |s.ballVelocity.x| = 16 := hc.trans hfast.symm
  refine ⟨hax, hxy ▸ hax, hxy, hred, ?_, ?_⟩
  · constructor
    · intro hb h16
      have hr := hred.2 h16
      rw [hb] at hr
      cases hr
    · intro hne
      cases hcol : s.ballColor with
      | BLUE => rfl
      | RED => exact absurd (hred.1 hcol) hne
  · intro hp
    have := hmove hp
    rw [← hxy, Int.abs_eq_natAbs]
    omega

/-- C12 at the first Play state of a run: speed 8 on both axes and a blue ball. -/
theorem velocity_invariant_witness :
    Reachable (Update (startEnv 0 1) Init) ∧
    (Update (startEnv 0 1) Init).ballVelocity = { x := 8, y := -8 } ∧
    (Update (startEnv 0 1) Init).ballColor = Color.BLUE ∧
    |(Update (startEnv 0 1) Init).ballVelocity.x|
      = |(Update (startEnv 0 1) Init).ballVelocity.y| :=
  ⟨Reachable.update _ _ Reachable.init, rfl, rfl,
    (velocity_invariant (Update (startEnv 0 1) Init)
      (Reachable.update _ _ Reachable.init)).2.2.1⟩

/-! ## Phase transitions (lines 116 and 126-251) -/

/-- C13: the initial phase is Start; `Update` takes Start to Play if the start key is
held and otherwise stays in Start, takes Score to Play if the start key is held and
otherwise stays in Score, and takes Play to Score if the ball's new x is below 0 or
above `windowWidth - ballDiameter` and otherwise stays in Play.  So it never goes
from Start to Score and never enters Start from another phase. -/
theorem phase_transitions (e : Env) (s : Game) :
    Init.gameState = GameState.start ∧
    (s.gameState = GameState.start →
      (Update e s).gameState = (if e.keySpace then GameState.play else GameState.start)) ∧
    (s.gameState = GameState.score →
      (Update e s).gameState = (if e.keySpace then GameState.play else GameState.score)) ∧
    (s.gameState = GameState.play →
      (Update e s).gameState =
        (if s.ball.x + s.ballVelocity.x < 0 ∨
            s.ball.x + s.ballVelocity.x > windowWidth - ballDiameter
          then GameState.score else GameState.play)) ∧
    (s.gameState = GameState.start → (Update e s).gameState ≠ GameState.score) ∧
    (s.gameState ≠ GameState.start → (Update e s).gameState ≠ GameState.start) := by
  have hstart : s.gameState = GameState.start →
      (Update e s).gameState
        = (if e.keySpace then GameState.play else GameState.start) := by
    intro hg
    rw [Update_start e s hg]
    cases hk : e.keySpace with
    | false => rw [(updateStart_idle e s hk).1, hg]; rfl
    | true => rw [updateStart_go e s hk]; rfl
  refine ⟨rfl, hstart, ?_, ?_, ?_, fun hne h => hne (Update_gameState_start e s h)⟩
  · intro hg
    rw [Update_score e s hg]
    cases hk : e.keySpace with
    | false => rw [(updateScore_idle e s hk).2.2.2.2.2.1, hg]; rfl
    | true => rw [updateScore_restart e s hk]; rfl
  · intro hg
    rw [Update_play e s hg]
    obtain ⟨hlo, hhi, hmid⟩ := updatePlay_spec e s
    simp only [windowWidth, ballDiameter, ballRadius]
    by_cases h : s.ball.x + s.ballVelocity.x < 0 ∨ s.ball.x + s.ballVelocity.x > 960 - 20 * 2
    · rw [if_pos h]
      rcases h with h | h
      · exact (hlo h).1
      · exact (hhi (by omega)).1
    · rw [if_neg h, (hmid (by omega)).1, hg]
  · intro hg
    rw [hstart hg]
    cases e.keySpace <;> simp

/-- C13 at `Init` with the start key held, and at a Play state whose ball leaves the
field on the right. -/
theorem phase_transitions_witness :
    Init.gameState = GameState.start ∧
    (Update (startEnv 0 0) Init).gameState = GameState.play ∧
    (playAt 959 270 8 8).gameState = GameState.play ∧
    (Update idleEnv (playAt 959 270 8 8)).gameState = GameState.score ∧
    (playAt 959 270 8 8).gameState ≠ GameState.start ∧
    (Update idleEnv (playAt 959 270 8 8)).gameState ≠ GameState.start :=
  ⟨rfl, (phase_transitions (startEnv 0 0) Init).2.1 rfl, rfl,
    (phase_transitions idleEnv (playAt 959 270 8 8)).2.2.2.1 rfl, by decide,
    (phase_transitions idleEnv (playAt 959 270 8 8)).2.2.2.2.2 (by decide)⟩

/-! ## Paddle steps (lines 150-165) -/

/-- The player paddle step computes the reference step. -/
theorem movePlayerPaddle_y_eq (e : Env) (s : Game) :
    (movePlayerPaddle e s).playerPaddle.y
      = playerPaddleStep e.keyW e.keyS s.playerPaddle.y := by
  unfold movePlayerPaddle playerPaddleStep clamp
  simp only [windowHeight, paddleHeight, paddleSpeed]
  cases e.keyW <;> cases e.keyS <;>
    simp only [Bool.false_eq_true, if_false, if_true] <;>
    split_ifs <;> (try dsimp only at *) <;> omega

/-- The opponent paddle step computes the reference step. -/
theorem moveOpponentPaddle_y_eq (s : Game) :
    (moveOpponentPaddle s).opponentPaddle.y
      = opponentPaddleStep s.opponentPaddle.y s.ball.y := by
  unfold moveOpponentPaddle opponentPaddleStep clamp
  simp only [windowHeight, paddleHeight, paddleSpeed]
  split_ifs <;> (try dsimp only at *) <;> omega

/-- The paddle steps change no x, width or height. -/
theorem paddle_steps_shape (e : Env) (s : Game) :
    ((movePlayerPaddle e s).playerPaddle.x = s.playerPaddle.x ∧
      (movePlayerPaddle e s).playerPaddle.width = s.playerPaddle.width ∧
      (movePlayerPaddle e s).playerPaddle.height = s.playerPaddle.height) ∧
    ((moveOpponentPaddle s).opponentPaddle.x = s.opponentPaddle.x ∧
      (moveOpponentPaddle s).opponentPaddle.width = s.opponentPaddle.width ∧
      (moveOpponentPaddle s).opponentPaddle.height = s.opponentPaddle.height) := by
  constructor
  · unfold movePlayerPaddle
    simp only []
    split_ifs <;> exact ⟨rfl, rfl, rfl⟩
  · unfold moveOpponentPaddle
    simp only []
    split_ifs <;> exact ⟨rfl, rfl, rfl⟩

/-- The opponent paddle after a Play frame, in terms of the state before it. -/
theorem updatePlay_opponent_y (e : Env) (s : Game) :
    (updatePlay e s).opponentPaddle.y = opponentPaddleStep s.opponentPaddle.y s.ball.y := by
  rw [(updatePlay_paddles e s).2, moveOpponentPaddle_y_eq]
  simp

/-- C15: in a Play frame the new `playerPaddle.y` is
`clamp (y - 5*[up held] + 5*[down held]) 0 460`, so holding both keys leaves an
in-range paddle where it is; the new `opponentPaddle.y` is `clamp (y + 5) 0 460` when
the paddle centre `y + 40` is less than the ball's y at the start of the frame,
`clamp (y - 5) 0 460` when it is greater and `clamp y 0 460` when they are equal;
neither paddle's x, width or height changes. -/
theorem paddle_step_reference (e : Env) (s : Game) (hplay : s.gameState = GameState.play) :
    (Update e s).playerPaddle.y = playerPaddleStep e.keyW e.keyS s.playerPaddle.y ∧
    (e.keyW = true → e.keyS = true → 0 ≤ s.playerPaddle.y → s.playerPaddle.y ≤ 460 →
      (Update e s).playerPaddle.y = s.playerPaddle.y) ∧
    (Update e s).opponentPaddle.y = opponentPaddleStep s.opponentPaddle.y s.ball.y ∧
    ((Update e s).playerPaddle.x = s.playerPaddle.x ∧
      (Update e s).playerPaddle.width = s.playerPaddle.width ∧
      (Update e s).playerPaddle.height = s.playerPaddle.height) ∧
    ((Update e s).opponentPaddle.x = s.opponentPaddle.x ∧
      (Update e s).opponentPaddle.width = s.opponentPaddle.width ∧
      (Update e s).opponentPaddle.height = s.opponentPaddle.height) := by
  rw [Update_play e s hplay]
  have hy : (updatePlay e s).playerPaddle.y
      = playerPaddleStep e.keyW e.keyS s.playerPaddle.y := by
    rw [(updatePlay_paddles e s).1, movePlayerPaddle_y_eq]
  refine ⟨hy, ?_, updatePlay_opponent_y e s, ?_, ?_⟩
  · intro hw hs h0 h1
    rw [hy, hw, hs]
    unfold playerPaddleStep clamp
    simp only [if_true]
    omega
  · rw [(updatePlay_paddles e s).1]
    exact (paddle_steps_shape e s).1
  · rw [(updatePlay_paddles e s).2]
    have h := (paddle_steps_shape e (movePlayerPaddle e s)).2
    simpa using h

/-- C15 at a Play state with both keys held: the paddles start at 230, the player
paddle stays and the opponent paddle, level with the ball, stays too. -/
theorem paddle_step_reference_witness :
    (playAt 480 270 8 8).gameState = GameState.play ∧
    (playAt 480 270 8 8).playerPaddle.y = 230 ∧
    (Update (keysEnv true true) (playAt 480 270 8 8)).playerPaddle.y
      = playerPaddleStep true true 230 ∧
    (Update (keysEnv true true) (playAt 480 270 8 8)).playerPaddle.y = 230 ∧
    (Update (keysEnv true true) (playAt 480 270 8 8)).opponentPaddle.y
      = opponentPaddleStep 230 270 :=
  ⟨rfl, rfl,
    (paddle_step_reference (keysEnv true true) (playAt 480 270 8 8) rfl).1,
    (paddle_step_reference (keysEnv true true) (playAt 480 270 8 8) rfl).2.1 rfl rfl
      (by decide) (by decide),
    (paddle_step_reference (keysEnv true true) (playAt 480 270 8 8) rfl).2.2.1⟩

/-! ## The opponent's pursuit (lines 158-165) -/

/-- C14 as stated fails in three kinds of frame.  At the first Play state of a run
the paddle centre is level with the ball: the gap is 0 and stays 0.  With a gap of 3
the paddle still moves 5 and the gap becomes 2.  With the paddle at the lower limit
460 and the ball at 520 the clamp undoes the step and the gap stays 20.  In none of
them is the gap after the step the gap before it minus 5. -/
theorem opponent_gap_counterexample :
    (Reachable (Update (startEnv 0 0) Init) ∧
      (Update (startEnv 0 0) Init).gameState = GameState.play ∧
      |(Update (startEnv 0 0) Init).opponentPaddle.y + 40
          - (Update (startEnv 0 0) Init).ball.y| = 0 ∧
      |(Update idleEnv (Update (startEnv 0 0) Init)).opponentPaddle.y + 40
          - (Update (startEnv 0 0) Init).ball.y| = 0 ∧
      |(Update idleEnv (Update (startEnv 0 0) Init)).opponentPaddle.y + 40
          - (Update (startEnv 0 0) Init).ball.y|
        ≠ |(Update (startEnv 0 0) Init).opponentPaddle.y + 40
          - (Update (startEnv 0 0) Init).ball.y| - 5) ∧
    ((chaseAt 230 273).gameState = GameState.play ∧
      |(chaseAt 230 273).opponentPaddle.y + 40 - (chaseAt 230 273).ball.y| = 3 ∧
      |(Update idleEnv (chaseAt 230 273)).opponentPaddle.y + 40
          - (chaseAt 230 273).ball.y| = 2) ∧
    ((chaseAt 460 520).gameState = GameState.play ∧
      |(chaseAt 460 520).opponentPaddle.y + 40 - (chaseAt 460 520).ball.y| = 20 ∧
      |(Update idleEnv (chaseAt 460 520)).opponentPaddle.y + 40
          - (chaseAt 460 520).ball.y| = 20) := by
  refine ⟨⟨Reachable.update _ _ Reachable.init, rfl, ?_, ?_, ?_⟩, ⟨rfl, ?_, ?_⟩,
    ⟨rfl, ?_, ?_⟩⟩ <;> decide

/-- C14, amended: in a Play frame in which the gap between the opponent paddle's
centre and the ball's y (as read at the start of the frame) is at least 5 and the
paddle's step stays within `[0, 460]`, the gap after the paddle step is the gap before
it minus 5.  When the gap is 0 an in-range paddle stays where it is, and when the gap
is between 1 and 4 the paddle still moves 5 and the gap becomes 5 minus the gap before
it. -/
theorem opponent_gap (e : Env) (s : Game) (hplay : s.gameState = GameState.play)
    (hstep : (s.opponentPaddle.y + 40 < s.ball.y →
        0 ≤ s.opponentPaddle.y + 5 ∧ s.opponentPaddle.y + 5 ≤ 460) ∧
      (s.opponentPaddle.y + 40 > s.ball.y →
        0 ≤ s.opponentPaddle.y - 5 ∧ s.opponentPaddle.y - 5 ≤ 460) ∧
      (s.opponentPaddle.y + 40 = s.ball.y →
        0 ≤ s.opponentPaddle.y ∧ s.opponentPaddle.y ≤ 460)) :
    (5 ≤ |s.opponentPaddle.y + 40 - s.ball.y| →
      |(Update e s).opponentPaddle.y + 40 - s.ball.y|
        = |s.opponentPaddle.y + 40 - s.ball.y| - 5) ∧
    (|s.opponentPaddle.y + 40 - s.ball.y| = 0 →
      (Update e s).opponentPaddle.y = s.opponentPaddle.y ∧
      |(Update e s).opponentPaddle.y + 40 - s.ball.y| = 0) ∧
    (0 < |s.opponentPaddle.y + 40 - s.ball.y| →
      |s.opponentPaddle.y + 40 - s.ball.y| < 5 →
      |(Update e s).opponentPaddle.y + 40 - s.ball.y|
        = 5 - |s.opponentPaddle.y + 40 - s.ball.y|) := by
  rw [Update_play e s hplay, updatePlay_opponent_y]
  unfold opponentPaddleStep clamp
  simp only [Int.abs_eq_natAbs]
  obtain ⟨h1, h2, h3⟩ := hstep
  split_ifs with ha hb
  · have := h1 ha
    refine ⟨?_, ?_, ?_⟩ <;> omega
  · have := h2 hb
    refine ⟨?_, ?_, ?_⟩ <;> omega
  · have := h3 (by omega)
    refine ⟨?_, ?_, ?_⟩ <;> omega

/-- C14, amended, at a paddle 100 above the ball: the gap goes from 100 to 95. -/
theorem opponent_gap_witness :
    (chaseAt 230 370).gameState = GameState.play ∧
    |(chaseAt 230 370).opponentPaddle.y + 40 - (chaseAt 230 370).ball.y| = 100 ∧
    |(Update idleEnv (chaseAt 230 370)).opponentPaddle.y + 40 - (chaseAt 230 370).ball.y|
      = |(chaseAt 230 370).opponentPaddle.y + 40 - (chaseAt 230 370).ball.y| - 5 :=
  ⟨rfl, by decide,
    (opponent_gap idleEnv (chaseAt 230 370) rfl
      ⟨fun _ => by decide, fun _ => by decide, fun _ => by decide⟩).1 (by decide)⟩

/-! ## The score flag (lines 119, 167-179 and 226-249) -/

/-- C17: in a Play frame whose new ball x is above `windowWidth - ballDiameter`,
`showScoreText` is true after `Update` whatever it was; in one whose new ball x is
below 0, `showScoreText` is what it was; in both `scoreElapsed` is unchanged. -/
theorem score_flag_forced (e : Env) (s : Game) (hplay : s.gameState = GameState.play) :
    (s.ball.x + s.ballVelocity.x > windowWidth - ballDiameter →
      (Update e s).showScoreText = true ∧
      (Update e s).scoreElapsed = s.scoreElapsed) ∧
    (s.ball.x + s.ballVelocity.x < 0 →
      (Update e s).showScoreText = s.showScoreText ∧
      (Update e s).scoreElapsed = s.scoreElapsed) := by
  rw [Update_play e s hplay, updatePlay_scoreElapsed]
  obtain ⟨hlo, hhi, -⟩ := updatePlay_spec e s
  simp only [windowWidth, ballDiameter, ballRadius]
  constructor
  · intro h
    exact ⟨(hhi (by omega)).2.2.2.2, trivial⟩
  · intro h
    exact ⟨(hlo h).2.2.2.2, trivial⟩

/-- C17 at two Play states whose flag is false: the ball leaving on the right sets
it, the ball leaving on the left does not. -/
theorem score_flag_forced_witness :
    ({ playAt 959 270 8 8 with showScoreText := false } : Game).gameState
      = GameState.play ∧
    (Update idleEnv { playAt 959 270 8 8 with showScoreText := false }).showScoreText
      = true ∧
    (Update idleEnv { playAt 4 270 (-8) 8 with showScoreText := false }).showScoreText
      = false :=
  ⟨rfl,
    ((score_flag_forced idleEnv { playAt 959 270 8 8 with showScoreText := false } rfl).1
      (by decide)).1,
    ((score_flag_forced idleEnv { playAt 4 270 (-8) 8 with showScoreText := false } rfl).2
      (by decide)).1⟩

/-- Every state of a run that starts in a reachable state is reachable. -/
theorem Reachable.after_frames {s : Game} (h : Reachable s) (e : Env) (n : Nat) :
    Reachable (frames e n s) := by
  induction n with
  | zero => exact h
  | succ n ih => exact Reachable.update e _ ih

/-- Invariant of the reachable states: the score flag is set outside the Score
phase. -/
theorem Reachable.score_flag {s : Game} (h : Reachable s) :
    s.gameState = GameState.start ∨ s.gameState = GameState.play →
      s.showScoreText = true := by
  induction h with
  | init => exact fun _ => rfl
  | update e s _ ih =>
    intro hph
    cases hg : s.gameState with
    | start =>
      rw [Update_start e s hg]
      cases hk : e.keySpace with
      | false =>
        rw [(updateStart_idle e s hk).2.2.1]
        exact ih (Or.inl hg)
      | true =>
        rw [updateStart_go e s hk]
        exact ih (Or.inl hg)
    | play =>
      rw [Update_play e s hg] at hph ⊢
      obtain ⟨hlo, hhi, hmid⟩ := updatePlay_spec e s
      rcases lt_trichotomy (s.ball.x + s.ballVelocity.x) 0 with h | h | h
      · rw [(hlo h).1] at hph
        rcases hph with h' | h' <;> cases h'
      · rw [(hmid (by omega)).2.2.2.2]
        exact ih (Or.inr hg)
      · by_cases h' : s.ball.x + s.ballVelocity.x > 920
        · exact (hhi h').2.2.2.2
        · rw [(hmid (by omega)).2.2.2.2]
          exact ih (Or.inr hg)
    | score =>
      rw [Update_score e s hg] at hph ⊢
      cases hk : e.keySpace with
      | false =>
        rw [(updateScore_idle e s hk).2.2.2.2.2.1, hg] at hph
        rcases hph with h' | h' <;> cases h'
      | true =>
        rw [updateScore_restart e s hk]

/-- C18: in every state reachable from `Init`, `showScoreText` is true whenever the
phase is Start or Play; hence right after every Play to Score transition of a
reachable state, through the left boundary as well as through the right one,
`showScoreText` is true. -/
theorem score_flag_reachable (e : Env) (s : Game) (h : Reachable s) :
    (s.gameState = GameState.start ∨ s.gameState = GameState.play →
      s.showScoreText = true) ∧
    (s.gameState = GameState.play → (Update e s).gameState = GameState.score →
      (Update e s).showScoreText = true) := by
  refine ⟨h.score_flag, ?_⟩
  intro hg hsc
  rw [Update_play e s hg] at hsc ⊢
  obtain ⟨hlo, hhi, hmid⟩ := updatePlay_spec e s
  rcases lt_trichotomy (s.ball.x + s.ballVelocity.x) 0 with hx | hx | hx
  · rw [(hlo hx).2.2.2.2]
    exact h.score_flag (Or.inr hg)
  · rw [(hmid (by omega)).1, hg] at hsc
    cases hsc
  · by_cases hx' : s.ball.x + s.ballVelocity.x > 920
    · exact (hhi hx').2.2.2.2
    · rw [(hmid (by omega)).1, hg] at hsc
      cases hsc

/-- C18 on a run in which the player paddle is moved out of the way and the ball
flies from the centre out of the left side of the field: after 60 frames of play the
next frame enters the Score phase with the flag set. -/
theorem score_flag_reachable_witness :
    Reachable (frames (keysEnv true false) 60 (Update (startEnv 1 0) Init)) ∧
    (frames (keysEnv true false) 60 (Update (startEnv 1 0) Init)).gameState
      = GameState.play ∧
    (frames (keysEnv true false) 60 (Update (startEnv 1 0) Init)).ball.x = 0 ∧
    (Update idleEnv (frames (keysEnv true false) 60 (Update (startEnv 1 0) Init))).gameState
      = GameState.score ∧
    (Update idleEnv
      (frames (keysEnv true false) 60 (Update (startEnv 1 0) Init))).showScoreText
      = true := by
  set_option maxRecDepth 100000 in
  exact ⟨(Reachable.update _ _ Reachable.init).after_frames (keysEnv true false) 60, rfl, rfl, rfl,
    (score_flag_reachable idleEnv
      (frames (keysEnv true false) 60 (Update (startEnv 1 0) Init))
      ((Reachable.update _ _ Reachable.init).after_frames (keysEnv true false) 60)).2 rfl rfl⟩

/-! ## The ball stays in the field during play (lines 166-179, 191-224, 228-240) -/

/-- The collision step leaves the ball's x alone or puts it beside a paddle. -/
theorem collide_ball_x (e : Env) (s : Game) :
    (collide e s).ball.x = s.ball.x ∨
    (collide e s).ball.x = s.playerPaddle.x + paddleWidth + ballRadius ∨
    (collide e s).ball.x = s.opponentPaddle.x - ballDiameter := by
  cases hp : e.CheckCollisionCircleRec s.ball ballRadius s.playerPaddle with
  | true => exact Or.inr (Or.inl (collide_player e s hp).1)
  | false =>
    cases ho : e.CheckCollisionCircleRec s.ball ballRadius s.opponentPaddle with
    | true => exact Or.inr (Or.inr (collide_opponent e s hp ho).1)
    | false => rw [collide_none e s hp ho]; exact Or.inl rfl

/-- No frame changes a paddle's x. -/
theorem Update_paddle_x (e : Env) (s : Game) :
    (Update e s).playerPaddle.x = s.playerPaddle.x ∧
    (Update e s).opponentPaddle.x = s.opponentPaddle.x := by
  cases hg : s.gameState with
  | start => rw [Update_start e s hg]; simp
  | play =>
    rw [Update_play e s hg]
    obtain ⟨-, h1, h2⟩ := moved_horizontal e s
    simp only [updatePlay, collide_playerPaddle, collide_opponentPaddle]
    exact ⟨h1, h2⟩
  | score =>
    rw [Update_score e s hg]
    cases hk : e.keySpace with
    | false =>
      obtain ⟨h1, h2, -⟩ := updateScore_idle e s hk
      rw [h1, h2]; exact ⟨rfl, rfl⟩
    | true => rw [updateScore_restart e s hk]; exact ⟨rfl, rfl⟩

/-- The ball's x after a Play frame: where the horizontal move put it, or beside a
paddle. -/
theorem updatePlay_ball_x (e : Env) (s : Game) :
    (updatePlay e s).ball.x = s.ball.x + s.ballVelocity.x ∨
    (updatePlay e s).ball.x = s.playerPaddle.x + paddleWidth + ballRadius ∨
    (updatePlay e s).ball.x = s.opponentPaddle.x - ballDiameter := by
  obtain ⟨-, h1, h2⟩ := moved_horizontal e s
  have hx : (moved e s).ball.x = s.ball.x + s.ballVelocity.x := by simp [moved]
  have h := collide_ball_x e (moved e s)
  rw [h1, h2, hx] at h
  exact h

/-- Invariant of the reachable states: the paddles stand at x = 40 and x = 900, and
during play the ball's x is inside the field. -/
theorem Reachable.field {s : Game} (h : Reachable s) :
    s.playerPaddle.x = 40 ∧ s.opponentPaddle.x = 900 ∧
    (s.gameState = GameState.play → 0 ≤ s.ball.x ∧ s.ball.x ≤ 920) := by
  induction h with
  | init => exact ⟨rfl, rfl, fun h => by cases h⟩
  | update e s hr ih =>
    obtain ⟨hp, ho, hb⟩ := ih
    obtain ⟨hpx, hox⟩ := Update_paddle_x e s
    refine ⟨hpx.trans hp, hox.trans ho, ?_⟩
    intro hph
    cases hg : s.gameState with
    | start =>
      rw [Update_start e s hg, updateStart_ball, hr.start_ball hg]
      decide
    | play =>
      rw [Update_play e s hg] at hph ⊢
      obtain ⟨hlo, hhi, hmid⟩ := updatePlay_spec e s
      have hin : 0 ≤ s.ball.x + s.ballVelocity.x ∧ s.ball.x + s.ballVelocity.x ≤ 920 := by
        by_contra hout
        have hcase : s.ball.x + s.ballVelocity.x < 0 ∨ s.ball.x + s.ballVelocity.x > 920 := by
          omega
        rcases hcase with h' | h'
        · rw [(hlo h').1] at hph; cases hph
        · rw [(hhi h').1] at hph; cases hph
      have hx := updatePlay_ball_x e s
      simp only [paddleWidth, ballRadius, ballDiameter] at hx
      omega
    | score =>
      rw [Update_score e s hg] at hph ⊢
      cases hk : e.keySpace with
      | false =>
        rw [(updateScore_idle e s hk).2.2.2.2.2.1, hg] at hph
        cases hph
      | true =>
        rw [updateScore_restart e s hk]
        dsimp only
        decide

/-- C19: in every state reachable from `Init` whose phase is Play, the ball's x lies
in `[0, windowWidth - ballDiameter]`. -/
theorem ball_x_in_field (s : Game) (h : Reachable s) (hplay : s.gameState = GameState.play) :
    0 ≤ s.ball.x ∧ s.ball.x ≤ windowWidth - ballDiameter := by
  have := h.field.2.2 hplay
  simp only [windowWidth, ballDiameter, ballRadius]
  omega

/-- C19 at the last Play state of a run before the ball leaves on the left: x = 0. -/
theorem ball_x_in_field_witness :
    Reachable (frames (keysEnv true false) 60 (Update (startEnv 1 0) Init)) ∧
    (frames (keysEnv true false) 60 (Update (startEnv 1 0) Init)).gameState
      = GameState.play ∧
    (frames (keysEnv true false) 60 (Update (startEnv 1 0) Init)).ball.x = 0 ∧
    (0 ≤ (frames (keysEnv true false) 60 (Update (startEnv 1 0) Init)).ball.x ∧
      (frames (keysEnv true false) 60 (Update (startEnv 1 0) Init)).ball.x
        ≤ windowWidth - ballDiameter) := by
  set_option maxRecDepth 100000 in
  exact ⟨(Reachable.update _ _ Reachable.init).after_frames (keysEnv true false) 60, rfl, rfl,
    ball_x_in_field (frames (keysEnv true false) 60 (Update (startEnv 1 0) Init))
      ((Reachable.update _ _ Reachable.init).after_frames (keysEnv true false) 60) rfl⟩

/-! ## Leaving the wall (lines 180-190 and 191-224) -/

/-- C20: in a Play frame of a state reachable from `Init`, if the vertical move
clamps `ball.y` to the top margin 20 then `vy` is positive after `Update`, and if it
clamps `ball.y` to the bottom margin 520 then `vy` is negative after `Update`,
whether or not a paddle collision is reported in the same frame. -/
theorem leaves_wall (e : Env) (s : Game) (h : Reachable s)
    (hplay : s.gameState = GameState.play) :
    (s.ball.y + s.ballVelocity.y < ballRadius →
      (Update e s).ball.y = 20 ∧ 0 < (Update e s).ballVelocity.y) ∧
    (s.ball.y + s.ballVelocity.y > windowHeight - ballRadius →
      (Update e s).ball.y = 520 ∧ (Update e s).ballVelocity.y < 0) := by
  rw [Update_play e s hplay]
  simp only [updatePlay, collide_ball_y]
  obtain ⟨hlo, hhi, -⟩ := moved_vertical e s
  obtain ⟨hside1, hside2⟩ := collide_vy_side e (moved e s)
  obtain ⟨-, -, hy0, hy1⟩ := h.vertical_ranges
  simp only [windowHeight, ballRadius] at hlo hhi hy0 hy1 ⊢
  constructor
  · intro hc
    obtain ⟨hy, hv⟩ := hlo hc
    exact ⟨hy, hside2 (by omega)⟩
  · intro hc
    obtain ⟨hy, hv⟩ := hhi hc
    exact ⟨by omega, hside1 (by omega)⟩

/-- C20 on a run in which the ball flies from the centre to the top wall: after 31
frames of play it is at y = 22 moving up, and the next frame leaves it at y = 20
moving down. -/
theorem leaves_wall_witness :
    Reachable (frames idleEnv 31 (Update (startEnv 0 1) Init)) ∧
    (frames idleEnv 31 (Update (startEnv 0 1) Init)).gameState = GameState.play ∧
    (frames idleEnv 31 (Update (startEnv 0 1) Init)).ball.y = 22 ∧
    (frames idleEnv 31 (Update (startEnv 0 1) Init)).ballVelocity.y = -8 ∧
    ((Update idleEnv (frames idleEnv 31 (Update (startEnv 0 1) Init))).ball.y = 20 ∧
      0 < (Update idleEnv (frames idleEnv 31 (Update (startEnv 0 1) Init))).ballVelocity.y) := by
  set_option maxRecDepth 100000 in
  exact ⟨(Reachable.update _ _ Reachable.init).after_frames idleEnv 31, rfl, rfl, rfl,
    (leaves_wall idleEnv (frames idleEnv 31 (Update (startEnv 0 1) Init))
      ((Reachable.update _ _ Reachable.init).after_frames idleEnv 31) rfl).1 (by decide)⟩

/-! ## Blink timers (lines 128-147 and 226-250) -/

/-- Rounding down: `x` is less than one half above the integer `n`. -/
theorem roundHalfEven_down (x : ℚ) (n : ℤ) (h1 : (n : ℚ) ≤ x) (h2 : x - n < 1 / 2) :
    roundHalfEven x = n := by
  have hf : ⌊x⌋ = n := Int.floor_eq_iff.mpr ⟨h1, by linarith⟩
  unfold roundHalfEven
  rw [hf, if_pos h2]

/-- Rounding up: `x` is more than one half above the integer `n`. -/
theorem roundHalfEven_up (x : ℚ) (n : ℤ) (h1 : (n : ℚ) ≤ x) (h2 : 1 / 2 < x - n)
    (h3 : x < n + 1) : roundHalfEven x = n + 1 := by
  have hf : ⌊x⌋ = n := Int.floor_eq_iff.mpr ⟨h1, h3⟩
  unfold roundHalfEven
  rw [hf, if_neg (by linarith), if_pos h2]

/-- The rounding of a number whose count of units `2^-149` has `b + 1` bits. -/
theorem roundFloat_eq (q : ℚ) (b : ℕ) (h1 : (2 : ℚ) ^ b ≤ |q * 2 ^ 149|)
    (h2 : |q * 2 ^ 149| < 2 ^ (b + 1)) :
    roundFloat q
      = (roundHalfEven (q * 2 ^ 149 / 2 ^ (b - 23)) : ℚ) * 2 ^ (b - 23) / 2 ^ 149 := by
  have hlog : Nat.log 2 ⌊|q * 2 ^ 149|⌋₊ = b := by
    apply Nat.log_eq_of_pow_le_of_lt_pow
    · apply Nat.le_floor
      push_cast
      exact h1
    · rw [Nat.floor_lt (abs_nonneg _)]
      push_cast
      exact h2
  unfold roundFloat
  simp only [hlog]

/-- The constants `float04`, `float01` and `float60` are the `float`s nearest to 0.4,
0.1 and 1/60. -/
theorem roundFloat_constants :
    roundFloat (4 / 10) = float04 ∧ roundFloat (1 / 10) = float01 ∧
    roundFloat (1 / 60) = float60 := by
  refine ⟨?_, ?_, ?_⟩
  · rw [roundFloat_eq _ 147 (by norm_num [abs_of_pos]) (by norm_num [abs_of_pos]),
      roundHalfEven_up _ 13421772 (by norm_num) (by norm_num) (by norm_num)]
    norm_num [float04]
  · rw [roundFloat_eq _ 145 (by norm_num [abs_of_pos]) (by norm_num [abs_of_pos]),
      roundHalfEven_up _ 13421772 (by norm_num) (by norm_num) (by norm_num)]
    norm_num [float01]
  · rw [roundFloat_eq _ 143 (by norm_num [abs_of_pos]) (by norm_num [abs_of_pos]),
      roundHalfEven_up _ 8947848 (by norm_num) (by norm_num) (by norm_num)]
    norm_num [float60]

/-- In single precision 0 + 0.4f is 0.4f. -/
theorem addFloat_zero_float04 : addFloat 0 float04 = float04 := by
  unfold addFloat float04
  rw [roundFloat_eq _ 147 (by norm_num [abs_of_pos]) (by norm_num [abs_of_pos]),
    roundHalfEven_down _ 13421773 (by norm_num) (by norm_num)]
  norm_num

/-- In single precision 0.4f + 0.1f is exactly 0.5: the exact sum, 0.5 + 2^-27, is
rounded down. -/
theorem addFloat_float04_float01 : addFloat float04 float01 = 1 / 2 := by
  unfold addFloat float04 float01
  rw [roundFloat_eq _ 148 (by norm_num [abs_of_pos]) (by norm_num [abs_of_pos]),
    roundHalfEven_down _ 8388608 (by norm_num) (by norm_num)]
  norm_num

/-- In single precision 0.25 + the frame time at 60 frames per second is rounded
up. -/
theorem addFloat_quarter_float60 : addFloat (1 / 4) float60 = 8947849 / 2 ^ 25 := by
  unfold addFloat float60
  rw [roundFloat_eq _ 147 (by norm_num [abs_of_pos]) (by norm_num [abs_of_pos]),
    roundHalfEven_up _ 8947848 (by norm_num) (by norm_num) (by norm_num)]
  norm_num

/-- In single precision 0.25 + 0.5 is 0.75. -/
theorem addFloat_quarter_half : addFloat (1 / 4) (1 / 2) = 3 / 4 := by
  unfold addFloat
  rw [roundFloat_eq _ 148 (by norm_num [abs_of_pos]) (by norm_num [abs_of_pos]),
    roundHalfEven_down _ 12582912 (by norm_num) (by norm_num)]
  norm_num

/-- The Start branch without the start key: timer and flag (lines 140-145). -/
theorem updateStart_timer (e : Env) (s : Game) (hk : e.keySpace = false) :
    (updateStart e s).startElapsed
      = (if addFloat s.startElapsed e.frameTime > 1 / 2 then 0
          else addFloat s.startElapsed e.frameTime) ∧
    (updateStart e s).showStartText
      = (if addFloat s.startElapsed e.frameTime > 1 / 2 then !s.showStartText
          else s.showStartText) := by
  unfold updateStart
  simp only [hk, Bool.false_eq_true, if_false, startThreshold]
  split_ifs <;> exact ⟨rfl, rfl⟩

/-- The Score branch without the start key: timer and flag (lines 243-248). -/
theorem updateScore_timer (e : Env) (s : Game) (hk : e.keySpace = false) :
    (updateScore e s).scoreElapsed
      = (if addFloat s.scoreElapsed e.frameTime > 1 / 2 then 0
          else addFloat s.scoreElapsed e.frameTime) ∧
    (updateScore e s).showScoreText
      = (if addFloat s.scoreElapsed e.frameTime > 1 / 2 then !s.showScoreText
          else s.showScoreText) := by
  unfold updateScore
  simp only [hk, Bool.false_eq_true, if_false, scoreThreshold]
  split_ifs <;> exact ⟨rfl, rfl⟩

/-- The state `stalled`: still in the Start phase, 0.4f on the timer, text shown. -/
theorem stalled_spec :
    stalled.gameState = GameState.start ∧ stalled.startElapsed = float04 ∧
    stalled.showStartText = true := by
  have hk : (frameEnv float04).keySpace = false := rfl
  have ht : (frameEnv float04).frameTime = float04 := rfl
  have h0 : Init.startElapsed = 0 := rfl
  have hle : ¬ float04 > 1 / 2 := by norm_num [float04]
  obtain ⟨h1, h2⟩ := updateStart_timer (frameEnv float04) Init hk
  rw [ht, h0, addFloat_zero_float04, if_neg hle] at h1 h2
  unfold stalled
  rw [Update_start _ _ rfl]
  exact ⟨(updateStart_idle (frameEnv float04) Init hk).1, h1, h2⟩

/-- C16 as stated, with `startElapsed + dt` the exact sum, fails in two ways.  On a
run whose first frame took 0.4f seconds, a frame of 0.1f seconds has an exact sum
above 0.5, yet the `float` sum is exactly 0.5: the timer becomes 0.5, it is not
reset, and the text is not toggled.  And in a Score state 0.25 s into its period, the
frame time at 60 frames per second has an exact sum below 0.5, yet the timer stored
is the rounded sum, not the exact one. -/
theorem blink_timer_counterexample :
    (Reachable stalled ∧
      stalled.gameState = GameState.start ∧
      (frameEnv float01).keySpace = false ∧
      stalled.showStartText = true ∧
      stalled.startElapsed + (frameEnv float01).frameTime > 1 / 2 ∧
      (Update (frameEnv float01) stalled).startElapsed = 1 / 2 ∧
      (Update (frameEnv float01) stalled).startElapsed ≠ 0 ∧
      (Update (frameEnv float01) stalled).showStartText = true) ∧
    (scoreBoard.gameState = GameState.score ∧
      (frameEnv float60).keySpace = false ∧
      ¬ scoreBoard.scoreElapsed + (frameEnv float60).frameTime > 1 / 2 ∧
      (Update (frameEnv float60) scoreBoard).scoreElapsed = 8947849 / 2 ^ 25 ∧
      (Update (frameEnv float60) scoreBoard).scoreElapsed
        ≠ scoreBoard.scoreElapsed + (frameEnv float60).frameTime) := by
  obtain ⟨hg, ht, hf⟩ := stalled_spec
  have hk1 : (frameEnv float01).keySpace = false := rfl
  have hd1 : (frameEnv float01).frameTime = float01 := rfl
  have hk2 : (frameEnv float60).keySpace = false := rfl
  have hd2 : (frameEnv float60).frameTime = float60 := rfl
  have hq : scoreBoard.scoreElapsed = 1 / 4 := rfl
  have hhalf : ¬ (1 / 2 : ℚ) > 1 / 2 := by norm_num
  have hsmall : ¬ (8947849 / 2 ^ 25 : ℚ) > 1 / 2 := by norm_num
  obtain ⟨h1, h2⟩ := updateStart_timer (frameEnv float01) stalled hk1
  rw [hd1, ht, addFloat_float04_float01, if_neg hhalf] at h1 h2
  obtain ⟨h3, -⟩ := updateScore_timer (frameEnv float60) scoreBoard hk2
  rw [hd2, hq, addFloat_quarter_float60, if_neg hsmall] at h3
  refine ⟨⟨Reachable.update _ _ Reachable.init, hg, hk1, hf, ?_, ?_, ?_, ?_⟩,
    ⟨rfl, hk2, ?_, ?_, ?_⟩⟩
  · rw [hd1, ht]; norm_num [float04, float01]
  · rw [Update_start _ _ hg]; exact h1
  · rw [Update_start _ _ hg, h1]; norm_num
  · rw [Update_start _ _ hg, h2]; exact hf
  · rw [hd2, hq]; norm_num [float60]
  · rw [Update_score _ _ rfl]; exact h3
  · rw [Update_score _ _ rfl, h3, hd2, hq]; norm_num [float60]

/-- C16, amended: in the Start phase without the start key, `Update` sets
`startElapsed` to 0 and toggles `showStartText` when the single-precision sum of
`startElapsed` and the frame time is above 0.5 (strictly), and otherwise sets
`startElapsed` to that single-precision sum and leaves `showStartText` unchanged; the
Score phase without the start key does the same with `scoreElapsed` and
`showScoreText`.  With the start key held the phase's timer is set to 0 and its flag
to true. -/
theorem blink_timer (e : Env) (s : Game) :
    (s.gameState = GameState.start → e.keySpace = false →
      (addFloat s.startElapsed e.frameTime > 1 / 2 →
        (Update e s).startElapsed = 0 ∧
        (Update e s).showStartText = !s.showStartText) ∧
      (¬ addFloat s.startElapsed e.frameTime > 1 / 2 →
        (Update e s).startElapsed = addFloat s.startElapsed e.frameTime ∧
        (Update e s).showStartText = s.showStartText)) ∧
    (s.gameState = GameState.score → e.keySpace = false →
      (addFloat s.scoreElapsed e.frameTime > 1 / 2 →
        (Update e s).scoreElapsed = 0 ∧
        (Update e s).showScoreText = !s.showScoreText) ∧
      (¬ addFloat s.scoreElapsed e.frameTime > 1 / 2 →
        (Update e s).scoreElapsed = addFloat s.scoreElapsed e.frameTime ∧
        (Update e s).showScoreText = s.showScoreText)) ∧
    (s.gameState = GameState.start → e.keySpace = true →
      (Update e s).startElapsed = 0 ∧ (Update e s).showStartText = true) ∧
    (s.gameState = GameState.score → e.keySpace = true →
      (Update e s).scoreElapsed = 0 ∧ (Update e s).showScoreText = true) := by
  refine ⟨?_, ?_, ?_, ?_⟩
  · intro hg hk
    rw [Update_start e s hg]
    obtain ⟨h1, h2⟩ := updateStart_timer e s hk
    constructor
    · intro h
      rw [h1, h2, if_pos h, if_pos h]
      exact ⟨rfl, rfl⟩
    · intro h
      rw [h1, h2, if_neg h, if_neg h]
      exact ⟨rfl, rfl⟩
  · intro hg hk
    rw [Update_score e s hg]
    obtain ⟨h1, h2⟩ := updateScore_timer e s hk
    constructor
    · intro h
      rw [h1, h2, if_pos h, if_pos h]
      exact ⟨rfl, rfl⟩
    · intro h
      rw [h1, h2, if_neg h, if_neg h]
      exact ⟨rfl, rfl⟩
  · intro hg hk
    rw [Update_start e s hg, updateStart_go e s hk]
    exact ⟨rfl, rfl⟩
  · intro hg hk
    rw [Update_score e s hg, updateScore_restart e s hk]
    exact ⟨rfl, rfl⟩

/-- C16, amended, at a Score state 0.25 s into its blink period with the text hidden:
a frame of 0.5 s brings the single-precision sum to 0.75, which resets the timer and
shows the text. -/
theorem blink_timer_witness :
    scoreBoard.gameState = GameState.score ∧
    (frameEnv (1 / 2)).keySpace = false ∧
    scoreBoard.showScoreText = false ∧
    addFloat scoreBoard.scoreElapsed (frameEnv (1 / 2)).frameTime > 1 / 2 ∧
    (Update (frameEnv (1 / 2)) scoreBoard).scoreElapsed = 0 ∧
    (Update (frameEnv (1 / 2)) scoreBoard).showScoreText = !scoreBoard.showScoreText :=
  have h : addFloat scoreBoard.scoreElapsed (frameEnv (1 / 2)).frameTime > 1 / 2 := by
    have hq : scoreBoard.scoreElapsed = 1 / 4 := rfl
    have hd : (frameEnv (1 / 2)).frameTime = 1 / 2 := rfl
    rw [hq, hd, addFloat_quarter_half]
    norm_num
  ⟨rfl, rfl, rfl, h, ((blink_timer (frameEnv (1 / 2)) scoreBoard).2.1 rfl rfl).1 h⟩

end Pong
